import Mathlib

/-!
Shallow embedding of the cloud-run-mcp deployment pipeline
(src/cloud-run-deploy.js, src/tools.js, src/iam-utils.js).

The repository file src/cloud-run-deploy.js contains two snapshots of the
deployment module: an earlier one (deploy without a progress callback,
lines 29-533, together with `ensureProjectExists`) and a later one
(deploy with a `progressCallback`, lines 892-1501), plus the helper
modules gcp-billing-accounts.js (lines 595-675) and gcp-projects.js
(lines 1503-1636).  Both snapshots are embedded here; the earlier one is
suffixed `V1`, the later one `V2` where the two differ.

External services (resource manager, billing, service usage, storage,
artifact registry, cloud build, cloud run) are modelled as oracle values
threaded through each function; the local filesystem is a finite map from
absolute paths to an is-directory flag.  Every remote interaction and
every log/progress message is recorded in an event trace.
-/

/-- A JavaScript value appearing in the `files` array.
`str` is a path string; `obj` models a JS object, with flags recording
whether the keys `filename` and `content` are present (the code tests key
presence with `'filename' in file && 'content' in file` and truthiness
with `file.filename`); `other` models any other JS value, carrying its
`JSON.stringify` rendering. -/
inductive JSFile : Type
  | str (s : String)
  | obj (hasFilename hasContent : Bool) (filename content : String)
  | other (rendered : String)
  deriving DecidableEq, Repr

/-- Model of `JSON.stringify` of a `files` element, as used in the
`Invalid file format:` error message of `zipFiles`. -/
def jsStringify : JSFile → String
  | .str s => "\"" ++ s ++ "\""
  | .obj _ _ fn c => "\x7b\"filename\":\"" ++ fn ++ "\",\"content\":\"" ++ c ++ "\"\x7d"
  | .other r => r

/-- The local filesystem: a finite list of (absolute path, is-directory)
entries.  `fs.existsSync p` is membership; `fs.statSync(p).isDirectory()`
is the flag. -/
structure FS : Type where
  entries : List (String × Bool)
  deriving DecidableEq, Repr

/-- Node `fs.statSync(p)`: `some isDir` when the path exists, `none`
when `statSync` would throw `ENOENT`. -/
def FS.stat (fs : FS) (p : String) : Option Bool :=
  (fs.entries.find? (fun e => e.1 == p)).map (·.2)

/-- Node `fs.existsSync(p)`. -/
def FS.existsB (fs : FS) (p : String) : Bool :=
  (fs.stat p).isSome

/-- Model of `s.startsWith(pre)`, computed on the underlying character lists so
that the kernel can evaluate it. -/
def strStartsWith (s pre : String) : Bool :=
  pre.data.isPrefixOf s.data

/-- Model of `s.toLowerCase()`, computed on the underlying character list. -/
def strToLower (s : String) : String :=
  ⟨s.data.map Char.toLower⟩

/-- JS `s.includes(pat)` on character lists. -/
def charsContain (pat : List Char) : List Char → Bool
  | [] => pat.isEmpty
  | c :: rest => pat.isPrefixOf (c :: rest) || charsContain pat rest

/-- JS `s.includes(pat)`. -/
def strIncludes (s pat : String) : Bool :=
  charsContain pat.data s.data

/-- Splits a character list at `/` separators. -/
def splitSlash : List Char → List (List Char)
  | [] => [[]]
  | c :: rest =>
    let r := splitSlash rest
    if c = '/' then [] :: r
    else
      match r with
      | h :: t => (c :: h) :: t
      | [] => [[c]]

/-- Node `path.resolve(cwd, p)` for already-normalised inputs: an
absolute path is returned unchanged, a relative one is joined to the
working directory. -/
def pathResolve (cwd p : String) : String :=
  if strStartsWith p "/" then p else cwd ++ "/" ++ p

/-- Node `path.join(a, b)` for inputs without trailing separators. -/
def joinPath (a b : String) : String :=
  a ++ "/" ++ b

/-- Node `path.basename(p)` for paths without trailing separators: the
last `/`-separated component. -/
def basename (p : String) : String :=
  ⟨(splitSlash p.data).getLastD p.data⟩

/-- The inline path rewrite in `zipFiles` (src/cloud-run-deploy.js
lines 271-274 and 1200-1203): a path starting with the two characters
`/c` gets `/mnt` prepended ("WSL hack"); every other path is unchanged. -/
def rewriteWslPath (p : String) : String :=
  if strStartsWith p "/c" then "/mnt" ++ p else p

/-- Observable activity of the pipeline: remote API calls, local
filesystem probes, archive operations, waits, and log/progress output. -/
inductive Event : Type
  | log (level msg : String)
  | createProjectCall
  | listBillingAccountsCall
  | attachBillingCall (project account : String)
  | getApiServiceCall (name : String)
  | enableApiServiceCall (name : String)
  | bucketExistsCall (bucket : String)
  | createBucketCall (bucket location : String)
  | uploadCall (bucket blob : String)
  | getRepositoryCall (repoPath : String)
  | createRepositoryCall (parent repoId : String)
  | createBuildCall (project stepName : String)
  | getBuildCall (project buildId : String)
  | getRunServiceCall (servicePath : String)
  | dryRunValidateCall (public : Bool)
  | createServiceCall (public : Bool)
  | updateServiceCall (public : Bool)
  | grantRoleCall (project serviceAccount role : String)
  | sleep (ms : Nat)
  | localExistsCheck (path : String)
  | archiveAppendInline (name : String)
  | archiveAddFile (path name : String)
  | archiveAddDir (path : String)
  deriving DecidableEq, Repr

/-- Whether an event is a remote (network) call.  Log output, waits,
local filesystem probes and in-memory archive operations are local. -/
def Event.isRemote : Event → Bool
  | .log _ _ | .sleep _ | .localExistsCheck _
  | .archiveAppendInline _ | .archiveAddFile _ _ | .archiveAddDir _ => false
  | _ => true

/-- Result of a pipeline entry point: normal value, thrown error,
`process.exit`, or an endless poll loop (the remote never answers with a
terminal status). -/
inductive Outcome (α : Type) : Type
  | ok (a : α)
  | err (msg : String)
  | exited (code : Nat)
  | hang
  deriving DecidableEq, Repr

/-- One step of `zipFiles` (src/cloud-run-deploy.js lines 1194-1218 and
262-289): processes the `files` entries in order; the first offending
entry throws, aborting the remaining entries. -/
def zipFilesGo (fs : FS) (cwd : String) : List JSFile → Except String Unit × List Event
  | [] => (.ok (), [])
  | f :: rest =>
    match f with
    | .obj true true fn _c =>
      let (res, evs) := zipFilesGo fs cwd rest
      (res, Event.archiveAppendInline fn :: evs)
    | .str p =>
      let filePath := pathResolve cwd (rewriteWslPath p)
      if fs.existsB filePath then
        match fs.stat filePath with
        | some true =>
          let (res, evs) := zipFilesGo fs cwd rest
          (res, Event.localExistsCheck filePath :: Event.archiveAddDir filePath :: evs)
        | _ =>
          let (res, evs) := zipFilesGo fs cwd rest
          (res, Event.localExistsCheck filePath ::
            Event.archiveAddFile filePath (basename filePath) :: evs)
      else
        (.error ("File or directory not found: " ++ filePath),
          [Event.localExistsCheck filePath])
    | _ =>
      (.error ("Invalid file format: " ++ jsStringify f), [])

/-- Model of `zipFiles(files)`: builds the in-memory archive, rejecting on the
first missing path or invalid element. -/
def zipFiles (files : List JSFile) (fs : FS) (cwd : String) :
    Except String Unit × List Event :=
  let (res, evs) := zipFilesGo fs cwd files
  (res, Event.log "info" "Creating in-memory zip archive..." :: evs)

deriving instance DecidableEq for Except

/-- A billing account as returned by `listBillingAccounts`
(src/cloud-run-deploy.js lines 618-635).  `isOpen` models the `open`
field of the source (a Lean keyword). -/
structure BillingAccount : Type where
  name : String
  displayName : String
  isOpen : Bool
  deriving DecidableEq, Repr

/-- Project billing info returned by `attachProjectToBillingAccount`. -/
structure AttachInfo : Type where
  billingEnabled : Bool
  deriving DecidableEq, Repr

/-- Oracle for the resource-manager and billing remotes.
`createProjectResult` is the outcome of `createProject`: `.error` models
a thrown creation error, `.ok none` a response without a `projectId`
(random ID generation inside `createProject` is absorbed into the
response).  `accounts` is what `listBillingAccounts` returns (the source
returns `[]` on error).  `attach` is what
`attachProjectToBillingAccount` returns (`none` models the `null`
returned on error). -/
structure BillingEnv : Type where
  createProjectResult : Except String (Option String)
  accounts : List BillingAccount
  attach : String → String → Option AttachInfo

/-- Model of `ensureProjectExists(initialProjectId)` (src/cloud-run-deploy.js
lines 55-94): passes a provided ID through unchanged; otherwise creates
a project and then requires a successful billing attachment, throwing
when no billing account, no open billing account, or a failed/disabled
attachment is encountered. -/
def ensureProjectExists (initialProjectId : Option String) (env : BillingEnv) :
    Except String String × List Event :=
  match initialProjectId with
  | some pid =>
    (.ok pid, [Event.log "info" ("Using provided project ID: " ++ pid)])
  | none =>
    let evs0 := [Event.log "info" "Project ID not provided. Attempting to create a new project...",
      Event.createProjectCall]
    match env.createProjectResult with
    | .error e => (.error e, evs0)
    | .ok none =>
      (.error "Failed to create a new project for deployment.",
        evs0 ++ [Event.log "error" "Failed to create a new project."])
    | .ok (some pid) =>
      let evs1 := evs0 ++ [Event.log "info" ("Successfully created new project: " ++ pid),
        Event.log "info" ("Attempting to attach project " ++ pid ++ " to a billing account..."),
        Event.listBillingAccountsCall]
      if env.accounts.isEmpty then
        (.error ("Project " ++ pid ++ " was created, but no billing accounts found to attach. Manual billing setup required."),
          evs1)
      else
        match env.accounts.find? (fun acc => acc.isOpen) with
        | none =>
          (.error ("Project " ++ pid ++ " was created, but no open billing accounts found. Manual billing setup required."),
            evs1)
        | some acc =>
          let evs2 := evs1 ++ [Event.log "info" ("Found open billing account: " ++ acc.displayName ++ " (" ++ acc.name ++ ")"),
            Event.attachBillingCall pid acc.name]
          match env.attach pid acc.name with
          | some info =>
            if info.billingEnabled then
              (.ok pid, evs2 ++ [Event.log "info" ("Successfully attached project " ++ pid ++ " to billing account " ++ acc.name ++ ".")])
            else
              (.error ("Failed to attach project " ++ pid ++ " to billing account " ++ acc.name ++ "."), evs2)
          | none =>
            (.error ("Failed to attach project " ++ pid ++ " to billing account " ++ acc.name ++ "."), evs2)

/-- JS `array.join(', ')`. -/
def joinCommaSpace : List String → String
  | [] => ""
  | [x] => x
  | x :: rest => x ++ ", " ++ joinCommaSpace rest

/-- Rendering of one account in the `No open billing accounts found`
message of `createProjectAndAttachBilling`. -/
def renderAccount (b : BillingAccount) : String :=
  b.displayName ++ " (Open: " ++ (if b.isOpen then "true" else "false") ++ ")"

/-- Model of `createProjectAndAttachBilling(projectIdParam)` (src/cloud-run-deploy.js
lines 1596-1636, from gcp-projects.js): creates a project, then attempts
billing attachment, reporting any billing problem by appending a warning
to the returned `billingMessage` instead of throwing.  The message of the
empty-accounts branch reproduces the source's single-quoted template
literally, including its uninterpolated `$\x7bprojectId\x7d`. -/
def createProjectAndAttachBilling (projectIdParam : Option String) (env : BillingEnv) :
    Except String (String × String) × List Event :=
  let _ := projectIdParam
  let evs0 := [Event.createProjectCall]
  match env.createProjectResult with
  | .error e => (.error ("Failed to create project: " ++ e), evs0)
  | .ok none => (.error "Project creation did not return a valid project ID.", evs0)
  | .ok (some pid) =>
    let base := "Project " ++ pid ++ " created."
    let evs1 := evs0 ++ [Event.listBillingAccountsCall]
    if env.accounts.isEmpty then
      (.ok (pid, base ++ " No billing accounts found. Please link billing manually: https://console.cloud.google.com/billing/linkedaccount?project=$\x7bprojectId\x7d"),
        evs1)
    else
      match env.accounts.find? (fun acc => acc.isOpen) with
      | none =>
        let rendered := joinCommaSpace (env.accounts.map renderAccount)
        let available := if rendered = "" then "None" else rendered
        (.ok (pid, base ++ (" No open billing accounts found. Available (may not be usable): " ++ available ++ ". Please link billing manually: https://console.cloud.google.com/billing/linkedaccount?project=" ++ pid)),
          evs1)
      | some acc =>
        let evs2 := evs1 ++ [Event.attachBillingCall pid acc.name]
        match env.attach pid acc.name with
        | some info =>
          if info.billingEnabled then
            (.ok (pid, base ++ (" Successfully attached to billing account " ++ acc.displayName ++ ".")), evs2)
          else
            (.ok (pid, base ++ (" Could not attach to billing account " ++ acc.displayName ++ " or billing not enabled. Please check manually. Console: https://console.cloud.google.com/billing/linkedaccount?project=" ++ pid)),
              evs2)
        | none =>
          (.ok (pid, base ++ (" Could not attach to billing account " ++ acc.displayName ++ " or billing not enabled. Please check manually. Console: https://console.cloud.google.com/billing/linkedaccount?project=" ++ pid)),
            evs2)

/-- The fixed denylist of the `add_IAM_Roles` tool (src/tools.js
lines 246-255), verbatim, including its mixed-case entries. -/
def forbiddenRoles : List String :=
  ["roles/owner",
   "roles/editor",
   "roles/admin.cloudrun.admin",
   "roles/iam.securityAdmin",
   "roles/resourcemanager.organizationAdmin",
   "roles/resourcemanager.projectIamAdmin",
   "roles/resourcemanager.folderIamAdmin"]

/-- The denylist scan of `add_IAM_Roles` (src/tools.js lines 262-271):
the first role whose lowercased form is literally contained in
`forbiddenRoles`, if any; that role triggers refusal of the batch. -/
def firstForbiddenRole (roles : List String) : Option String :=
  roles.find? (fun role => forbiddenRoles.contains (strToLower role))

/-- Reply of the `add_IAM_Roles` tool: refusal by the denylist, or the
success/failure text after attempting the grants. -/
inductive ToolReply : Type
  | refused (text : String)
  | granted (text : String)
  | failed (text : String)
  deriving DecidableEq, Repr

/-- Model of `addIAMRoles` (src/iam-utils.js lines 15-44): one `gcloud` policy
binding call per role, collecting per-role outcomes; `grantOk` is the
oracle for each call's success. -/
def addIAMRoles (projectId : String) (roles : List String) (serviceAccount : String)
    (grantOk : String → Bool) : Bool × List Event :=
  (roles.all grantOk, roles.map (fun r => Event.grantRoleCall projectId serviceAccount r))

/-- The `add_IAM_Roles` tool handler (src/tools.js lines 219-308) after
its non-empty input validations: refuses the whole batch if
`firstForbiddenRole` finds a match, otherwise performs the grants via
`addIAMRoles` and reports success or failure. -/
def add_IAM_Roles (project serviceAccountEmail : String) (roles : List String)
    (grantOk : String → Bool) : ToolReply × List Event :=
  match firstForbiddenRole roles with
  | some role =>
    (.refused ("Error: Adding the role \"" ++ role ++ "\" is not allowed. These roles are too permissive and can lead to significant security issues. Please choose more restrictive roles that adhere to the principle of least privilege."),
      [])
  | none =>
    let (success, evs) := addIAMRoles project roles serviceAccountEmail grantOk
    if success then
      (.granted ("IAM roles " ++ joinCommaSpace roles ++ " successfully added to service account " ++ serviceAccountEmail ++ " in project " ++ project ++ "."),
        evs)
    else
      (.failed ("Failed to add IAM roles " ++ joinCommaSpace roles ++ " to service account " ++ serviceAccountEmail ++ " in project " ++ project ++ ". Check the underlying IAM utility logs for details."),
        evs)

/-- The cloud resources relevant to the ensure steps: the set of
existing storage buckets and artifact-registry repository paths. -/
structure CloudState : Type where
  buckets : List String
  repos : List String
  deriving DecidableEq, Repr

/-- Fault oracle for the storage remote: errors thrown by
`bucket.exists()` and by `storage.createBucket`. -/
structure StorageFaults : Type where
  existsErr : Option String
  createErr : Option String
  deriving DecidableEq, Repr

/-- Model of `ensureStorageBucketExists(bucketName, location)`
(src/cloud-run-deploy.js lines 1120-1148 and 201-227): checks existence
and returns the bucket when present; otherwise creates it at the given
location.  The returned handle is modelled by the bucket name. -/
def ensureStorageBucketExists (bucketName location : String) (st : CloudState)
    (faults : StorageFaults) : Except String String × CloudState × List Event :=
  let evs0 := [Event.bucketExistsCall bucketName]
  match faults.existsErr with
  | some e =>
    (.error e, st, evs0 ++ [Event.log "error" ("Error checking/creating bucket " ++ bucketName ++ ": " ++ e)])
  | none =>
    if st.buckets.contains bucketName then
      (.ok bucketName, st, evs0 ++ [Event.log "info" ("Bucket " ++ bucketName ++ " already exists.")])
    else
      let evs1 := evs0 ++ [Event.log "info" ("Bucket " ++ bucketName ++ " does not exist. Creating in location " ++ location ++ "..."),
        Event.createBucketCall bucketName location]
      match faults.createErr with
      | some e =>
        (.error e, st, evs1 ++ [Event.log "error" ("Failed to create storage bucket " ++ bucketName ++ ". Error details: " ++ e)])
      | none =>
        (.ok bucketName, { st with buckets := bucketName :: st.buckets },
          evs1 ++ [Event.log "info" ("Storage bucket " ++ bucketName ++ " created successfully in " ++ location ++ ".")])

/-- Fault oracle for the artifact-registry remote: a non-NOT_FOUND error
from `getRepository`, and an error from `createRepository`. -/
structure RepoFaults : Type where
  lookupOtherErr : Option String
  createErr : Option String
  deriving DecidableEq, Repr

/-- Model of `ensureArtifactRegistryRepoExists(projectId, location, repositoryId,
format)` (src/cloud-run-deploy.js lines 1262-1299 and 322-359): gets the
repository by path; a NOT_FOUND (gRPC code 5) answer triggers creation,
any other lookup error is rethrown. -/
def ensureArtifactRegistryRepoExists (projectId location repositoryId format : String)
    (st : CloudState) (faults : RepoFaults) : Except String String × CloudState × List Event :=
  let _ := format
  let parent := "projects/" ++ projectId ++ "/locations/" ++ location
  let repoPath := parent ++ "/repositories/" ++ repositoryId
  let evs0 := [Event.getRepositoryCall repoPath]
  match faults.lookupOtherErr with
  | some e =>
    (.error e, st, evs0 ++ [Event.log "error" ("Error checking/creating repository " ++ repositoryId ++ ": " ++ e)])
  | none =>
    if st.repos.contains repoPath then
      (.ok repoPath, st, evs0 ++ [Event.log "info" ("Repository " ++ repositoryId ++ " already exists in " ++ location ++ ".")])
    else
      let evs1 := evs0 ++ [Event.log "info" ("Repository " ++ repositoryId ++ " does not exist in " ++ location ++ ". Creating..."),
        Event.createRepositoryCall parent repositoryId]
      match faults.createErr with
      | some e =>
        (.error e, st, evs1 ++ [Event.log "error" ("Failed to create Artifact Registry repository " ++ repositoryId ++ ". Error details: " ++ e)])
      | none =>
        (.ok repoPath, { st with repos := repoPath :: st.repos },
          evs1 ++ [Event.log "info" ("Artifact Registry repository " ++ repoPath ++ " created successfully.")])

/-- Oracle for the service-usage remote: per full service name, the
state returned by `getService` (or a thrown error) and the result of
`enableService`. -/
structure ApiEnv : Type where
  state : String → Except String String
  enable : String → Except String Unit

/-- The per-API loop of `ensureApisEnabled` (src/cloud-run-deploy.js
lines 961-983 and 101-119): sequentially checks each API and enables the
ones not in state `ENABLED`; any error becomes the fixed
`Failed to ensure API [...]` message. -/
def ensureApisEnabledGo (projectId : String) (env : ApiEnv) :
    List String → Except String Unit × List Event
  | [] => (.ok (), [])
  | api :: rest =>
    let serviceName := "projects/" ++ projectId ++ "/services/" ++ api
    let evs0 := [Event.getApiServiceCall serviceName]
    let failMsg := "Failed to ensure API [" ++ api ++ "] is enabled. Please check manually."
    match env.state serviceName with
    | .error _ => (.error failMsg, evs0 ++ [Event.log "error" failMsg])
    | .ok apiState =>
      if apiState = "ENABLED" then
        let (res, evs) := ensureApisEnabledGo projectId env rest
        (res, evs0 ++ evs)
      else
        let evs1 := evs0 ++ [Event.log "info" ("API [" ++ api ++ "] is not enabled. Enabling..."),
          Event.enableApiServiceCall serviceName]
        match env.enable serviceName with
        | .error _ => (.error failMsg, evs1 ++ [Event.log "error" failMsg])
        | .ok _ =>
          let (res, evs) := ensureApisEnabledGo projectId env rest
          (res, evs1 ++ evs)

/-- Model of `ensureApisEnabled(projectId, apis)`. -/
def ensureApisEnabled (projectId : String) (apis : List String) (env : ApiEnv) :
    Except String Unit × List Event :=
  let (res, evs) := ensureApisEnabledGo projectId env apis
  let evs := Event.log "info" "Checking and enabling required APIs..." :: evs
  match res with
  | .ok _ => (.ok (), evs ++ [Event.log "info" "All required APIs are enabled."])
  | .error e => (.error e, evs)

/-- Model of `REQUIRED_APIS` of the earlier snapshot (src/cloud-run-deploy.js
lines 33-40), which includes `cloudbilling.googleapis.com`. -/
def REQUIRED_APIS_V1 : List String :=
  ["iam.googleapis.com", "storage.googleapis.com", "cloudbuild.googleapis.com",
   "artifactregistry.googleapis.com", "run.googleapis.com", "cloudbilling.googleapis.com"]

/-- Model of `REQUIRED_APIS` of the later snapshot (src/cloud-run-deploy.js
lines 911-917). -/
def REQUIRED_APIS_V2 : List String :=
  ["iam.googleapis.com", "storage.googleapis.com", "cloudbuild.googleapis.com",
   "artifactregistry.googleapis.com", "run.googleapis.com"]

/-- Model of `REPO_NAME`: the shared Artifact Registry repository name. -/
def REPO_NAME : String := "mcp-cloud-run-deployments"

/-- Model of `ZIP_FILE_NAME`: fixed object name of the uploaded source archive. -/
def ZIP_FILE_NAME : String := "source.zip"

/-- Model of `IMAGE_TAG`. -/
def IMAGE_TAG : String := "latest"

/-- One answer of `cloudBuildClient.getBuild`: the job status, the log
URL, and the names of `results.images`. -/
structure BuildResp : Type where
  status : String
  logUrl : String
  images : List String
  deriving DecidableEq, Repr

/-- The terminal build statuses tested by the poll loop
(src/cloud-run-deploy.js lines 1368 and 422). -/
def terminalBuildStatuses : List String :=
  ["SUCCESS", "FAILURE", "INTERNAL_ERROR", "TIMEOUT", "CANCELLED"]

/-- Whether a status ends the poll loop. -/
def isTerminalBuildStatus (s : String) : Bool :=
  terminalBuildStatuses.contains s

/-- Oracle for the cloud-build remote: the outcome of `createBuild`
(the started build's id, or a thrown error) and the successive answers
of `getBuild`. -/
structure BuildEnv : Type where
  createBuildResult : Except String String
  polls : List BuildResp

/-- The `while (true)` poll loop of `triggerCloudBuild`
(src/cloud-run-deploy.js lines 1366-1374 and 420-428): one `getBuild`
call per iteration; a terminal status breaks out, any other status logs
and sleeps 5000 ms before the next call.  `none` models the loop never
meeting a terminal status within the supplied answers. -/
def pollBuild (projectId buildId : String) : List BuildResp → Option BuildResp × List Event
  | [] => (none, [])
  | r :: rest =>
    let ev := Event.getBuildCall projectId buildId
    if isTerminalBuildStatus r.status then
      (some r, [ev])
    else
      let (res, evs) := pollBuild projectId buildId rest
      (res, ev :: Event.log "debug" ("Build status: " ++ r.status ++ ". Waiting...") :: Event.sleep 5000 :: evs)

/-- The first build step's builder image, selected from Dockerfile
presence (src/cloud-run-deploy.js lines 1319-1343). -/
def buildStepName (hasDockerfile : Bool) : String :=
  if hasDockerfile then "gcr.io/cloud-builders/docker" else "gcr.io/k8s-skaffold/pack"

/-- Model of `triggerCloudBuild(...)` (src/cloud-run-deploy.js lines 1318-1394
and 372-444): starts the build, polls it to a terminal status, then
returns the completed build on `SUCCESS` (logging its first result
image) and throws `Cloud Build failed: <status>` otherwise, after
logging the failure and the log URL.  Errors thrown inside the `try` are
logged as `Error triggering Cloud Build:` and rethrown. -/
def triggerCloudBuild (projectId location sourceBucketName sourceBlobName targetRepoName targetImageUrl : String)
    (hasDockerfile : Bool) (env : BuildEnv) : Outcome BuildResp × List Event :=
  let _ := (targetRepoName, targetImageUrl)
  let evs0 := [Event.log "info" ("Initiating Cloud Build for gs://" ++ sourceBucketName ++ "/" ++ sourceBlobName ++ " in " ++ location ++ "..."),
    Event.createBuildCall projectId (buildStepName hasDockerfile)]
  match env.createBuildResult with
  | .error e =>
    (.err e, evs0 ++ [Event.log "error" ("Error triggering Cloud Build: " ++ e)])
  | .ok buildId =>
    let evs1 := evs0 ++ [Event.log "info" "Cloud Build job started..."]
    match pollBuild projectId buildId env.polls with
    | (none, pevs) => (.hang, evs1 ++ pevs)
    | (some completed, pevs) =>
      let evs2 := evs1 ++ pevs
      if completed.status = "SUCCESS" then
        match completed.images with
        | img :: _ =>
          (.ok completed,
            evs2 ++ [Event.log "info" ("Cloud Build job " ++ buildId ++ " completed successfully."),
              Event.log "info" ("Image built: " ++ img)])
        | [] =>
          (.err "TypeError: cannot read first image of build results",
            evs2 ++ [Event.log "info" ("Cloud Build job " ++ buildId ++ " completed successfully."),
              Event.log "error" "Error triggering Cloud Build: TypeError: cannot read first image of build results"])
      else
        let failMsg := "Cloud Build failed: " ++ completed.status
        (.err failMsg,
          evs2 ++ [Event.log "error" ("Cloud Build job " ++ buildId ++ " failed with status: " ++ completed.status),
            Event.log "info" ("Build logs: " ++ completed.logUrl),
            Event.log "error" ("Error triggering Cloud Build: " ++ failMsg)])

/-- Answer of `runClient.getService` for the target service: present,
NOT_FOUND (gRPC code 5), or some other error. -/
inductive RunLookup : Type
  | found
  | notFound
  | errOther (msg : String)
  deriving DecidableEq, Repr

/-- The deployed Cloud Run service object (only its `uri` matters to the
pipeline). -/
structure ServiceResp : Type where
  uri : String
  deriving DecidableEq, Repr

/-- An error raised by the `validateOnly` dry run: its `message` and its
gRPC `code`. -/
structure DryErr : Type where
  message : String
  code : Nat
  deriving DecidableEq, Repr

/-- Oracle for the Cloud Run remote: the `getService` lookup, the dry
run outcome (`none` = validation passed), and the result of the actual
create/update operation. -/
structure RunEnv : Type where
  lookup : RunLookup
  dryRunErr : Option DryErr
  deployResult : Except String ServiceResp

/-- Full resource path of a Cloud Run service. -/
def servicePath (projectId location serviceId : String) : String :=
  "projects/" ++ projectId ++ "/locations/" ++ location ++ "/services/" ++ serviceId

/-- Model of `checkCloudRunServiceExists` (src/cloud-run-deploy.js lines 996-1013
and 128-144): `getService`; code 5 means absent, other errors rethrow. -/
def checkCloudRunServiceExists (projectId location serviceId : String) (lookup : RunLookup) :
    Except String Bool × List Event :=
  let ev := Event.getRunServiceCall (servicePath projectId location serviceId)
  match lookup with
  | .found => (.ok true, [ev, Event.log "info" ("Cloud Run service " ++ serviceId ++ " already exists.")])
  | .notFound => (.ok false, [ev, Event.log "info" ("Cloud Run service " ++ serviceId ++ " does not exist.")])
  | .errOther m =>
    (.error m, [ev, Event.log "error" ("Error checking Cloud Run service " ++ serviceId ++ ": " ++ m)])

/-- Model of `deployToCloudRun` of the earlier snapshot (src/cloud-run-deploy.js
lines 154-193): no dry run; creates or updates the service with
`invokerIamDisabled: true` always set. -/
def deployToCloudRunV1 (projectId location serviceId imgUrl : String) (env : RunEnv) :
    Except String ServiceResp × List Event :=
  let _ := imgUrl
  match checkCloudRunServiceExists projectId location serviceId env.lookup with
  | (.error m, evs) =>
    (.error m, evs ++ [Event.log "error" ("Error deploying/updating service " ++ serviceId ++ ": " ++ m)])
  | (.ok svcExists, evs) =>
    let deployEvs :=
      if svcExists then
        [Event.log "info" ("Updating existing service " ++ serviceId ++ "..."), Event.updateServiceCall true]
      else
        [Event.log "info" ("Creating new service " ++ serviceId ++ "..."), Event.createServiceCall true]
    let evs1 := evs ++ deployEvs ++ [Event.log "info" ("Deploying " ++ serviceId ++ " to Cloud Run...")]
    match env.deployResult with
    | .error m =>
      (.error m, evs1 ++ [Event.log "error" ("Error deploying/updating service " ++ serviceId ++ ": " ++ m)])
    | .ok resp =>
      (.ok resp, evs1 ++ [Event.log "info" ("Service deployed/updated successfully: " ++ resp.uri)])

/-- The heuristic of the dry-run fallback (src/cloud-run-deploy.js
line 1071): a non-empty error message that mentions `invokeriamdisabled`
(lowercased) or `iam policy violation`, or any error whose gRPC code is
3 (`INVALID_ARGUMENT`). -/
def invokerIamHeuristic (e : DryErr) : Bool :=
  e.message != "" &&
    (strIncludes (strToLower e.message) "invokeriamdisabled" ||
     strIncludes (strToLower e.message) "iam policy violation" ||
     e.code == 3)

/-- Model of `deployToCloudRun` of the later snapshot (src/cloud-run-deploy.js
lines 1029-1107): performs a `validateOnly` dry run first; on a dry-run
error matching `invokerIamHeuristic` it deletes `invokerIamDisabled`
and proceeds (one-time fallback), on any other dry-run error it throws;
then creates or updates the service. -/
def deployToCloudRunV2 (projectId location serviceId imgUrl : String) (env : RunEnv) :
    Except String ServiceResp × List Event :=
  let _ := imgUrl
  match checkCloudRunServiceExists projectId location serviceId env.lookup with
  | (.error m, evs) =>
    (.error m, evs ++ [Event.log "error" ("Error deploying/updating service " ++ serviceId ++ ": " ++ m)])
  | (.ok svcExists, evs) =>
    let evs0 := evs ++ [Event.log "debug" ("Performing dry run for service " ++ serviceId ++ "..."),
      Event.dryRunValidateCall true]
    let proceed : Bool → List Event → Except String ServiceResp × List Event := fun public evsIn =>
      let deployEvs :=
        if svcExists then
          [Event.log "info" ("Updating existing service " ++ serviceId ++ "..."), Event.updateServiceCall public]
        else
          [Event.log "info" ("Creating new service " ++ serviceId ++ "..."), Event.createServiceCall public]
      let evs1 := evsIn ++ deployEvs ++ [Event.log "info" ("Deploying " ++ serviceId ++ " to Cloud Run...")]
      match env.deployResult with
      | .error m =>
        (.error m, evs1 ++ [Event.log "error" ("Error deploying/updating service " ++ serviceId ++ ": " ++ m)])
      | .ok resp =>
        (.ok resp, evs1 ++ [Event.log "info" ("Service deployed/updated successfully: " ++ resp.uri)])
    match env.dryRunErr with
    | none =>
      proceed true (evs0 ++ [Event.log "debug" ("Dry run successful for " ++ serviceId ++ " with current configuration.")])
    | some e =>
      let evs1 := evs0 ++ [Event.log "warn" ("Dry run for " ++ serviceId ++ " failed: " ++ e.message)]
      if invokerIamHeuristic e then
        proceed false
          (evs1 ++ [Event.log "warn" "Dry run suggests \x27invokerIamDisabled\x27 is not allowed or invalid. Attempting deployment without it."])
      else
        let m := "Dry run validation failed for service " ++ serviceId ++ ": " ++ e.message
        (.error m,
          evs1 ++ [Event.log "error" m,
            Event.log "error" ("Error deploying/updating service " ++ serviceId ++ ": " ++ m)])

/-- The Dockerfile scan over a `files` list (src/cloud-run-deploy.js
lines 1458-1470 and 490-502): a path string or an object with a truthy
`filename` counts when its base name lowercased is exactly
`dockerfile`. -/
def loopDetectDockerfile : List JSFile → Bool
  | [] => false
  | .str p :: rest =>
    if strToLower (basename p) = "dockerfile" then true else loopDetectDockerfile rest
  | .obj hasFilename _ fn _ :: rest =>
    if hasFilename && fn != "" && strToLower (basename fn) = "dockerfile" then true
    else loopDetectDockerfile rest
  | .other _ :: rest => loopDetectDockerfile rest

/-- Whether an element matches the case-insensitive Dockerfile test of
the scan loop. -/
def isDockerfileElem : JSFile → Bool
  | .str p => strToLower (basename p) = "dockerfile"
  | .obj hasFilename _ fn _ => hasFilename && fn != "" && strToLower (basename fn) = "dockerfile"
  | .other _ => false

/-- The `hasDockerfile` computation of the earlier `deploy`
(src/cloud-run-deploy.js lines 489-503): the scan loop only. -/
def detectDockerfileV1 (files : List JSFile) : Bool :=
  loopDetectDockerfile files

/-- The `hasDockerfile` computation of the later `deploy`
(src/cloud-run-deploy.js lines 1448-1472): a single path argument that
`statSync` reports as a directory is probed for the two exact names
`Dockerfile` and `dockerfile` inside the folder; every other shape of
input goes through the scan loop.  `statSync` on a missing single path
throws, modelled as `.error`. -/
def detectDockerfileV2 (files : List JSFile) (fs : FS) (cwd : String) : Except String Bool :=
  match files with
  | [JSFile.str s] =>
    match fs.stat (pathResolve cwd s) with
    | none => .error ("ENOENT: no such file or directory, stat \x27" ++ s ++ "\x27")
    | some true =>
      .ok (fs.existsB (pathResolve cwd (joinPath s "Dockerfile")) ||
           fs.existsB (pathResolve cwd (joinPath s "dockerfile")))
    | some false => .ok (loopDetectDockerfile files)
  | _ => .ok (loopDetectDockerfile files)

/-- Model of `uploadToStorageBucket(bucket, buffer, destinationBlobName)`
(src/cloud-run-deploy.js lines 1235-1247 and 302-312); the buffer's
contents are irrelevant to control flow. -/
def uploadToStorageBucket (bucketName destinationBlobName : String)
    (uploadResult : Except String Unit) : Except String Unit × List Event :=
  let evs0 := [Event.log "info" ("Uploading buffer to gs://" ++ bucketName ++ "/" ++ destinationBlobName ++ "..."),
    Event.uploadCall bucketName destinationBlobName]
  match uploadResult with
  | .error e => (.error e, evs0 ++ [Event.log "error" ("Error uploading buffer: " ++ e)])
  | .ok _ =>
    (.ok (), evs0 ++ [Event.log "info" ("File " ++ destinationBlobName ++ " uploaded successfully to gs://" ++ bucketName ++ "/" ++ destinationBlobName ++ ".")])

/-- The `files` argument as received by `deploy`: absent, not an array,
or an array of JS values. -/
inductive FilesArg : Type
  | missing
  | notArray
  | arr (files : List JSFile)
  deriving DecidableEq, Repr

/-- The configuration object passed to `deploy`, with the source's
defaults for `serviceName` and `region`. -/
structure DeployConfig : Type where
  projectId : Option String
  serviceName : String := "app"
  region : String := "europe-west1"
  files : FilesArg
  deriving DecidableEq, Repr

/-- All remote oracles and the local filesystem for one `deploy` run. -/
structure DeployEnv : Type where
  billing : BillingEnv
  api : ApiEnv
  st : CloudState
  storageFaults : StorageFaults
  repoFaults : RepoFaults
  uploadResult : Except String Unit
  fs : FS
  cwd : String
  build : BuildEnv
  run : RunEnv

/-- Whether `files` is missing, not an array, or empty — the condition
of the `deploy` input check. -/
def FilesArg.isInvalid : FilesArg → Bool
  | .missing => true
  | .notArray => true
  | .arr files => files.isEmpty

/-- The body of the earlier snapshot's `deploy` after project
resolution (src/cloud-run-deploy.js lines 470-526): enable APIs, derive
names, scan for a Dockerfile, ensure bucket, zip and upload, ensure
repository, build, deploy to Cloud Run.  Every caught error logs
`Deployment Failed` and rethrows. -/
def deployV1Pipeline (currentProjectId : String) (cfg : DeployConfig) (files : List JSFile)
    (env : DeployEnv) : Outcome ServiceResp × List Event :=
    let fail : String → List Event → Outcome ServiceResp × List Event := fun e evs =>
      (.err e, evs ++ [Event.log "error" "Deployment Failed", Event.log "error" e])
    match (ensureApisEnabled currentProjectId REQUIRED_APIS_V1 env.api) with
    | (.error e, aevs) => fail e aevs
    | (.ok _, aevs) =>
        let evs1 := aevs
        let bucketName := currentProjectId ++ "-source-bucket"
        let imageUrl := cfg.region ++ "-docker.pkg.dev/" ++ currentProjectId ++ "/" ++ REPO_NAME ++ "/" ++ cfg.serviceName ++ ":" ++ IMAGE_TAG
        let hasDockerfile := detectDockerfileV1 files
        let evs2 := evs1 ++ [Event.log "info" ("Project: " ++ currentProjectId),
          Event.log "info" ("Region: " ++ cfg.region),
          Event.log "info" ("Service Name: " ++ cfg.serviceName),
          Event.log "info" ("Files to deploy: " ++ toString files.length),
          Event.log "info" ("Dockerfile: " ++ (if hasDockerfile then "true" else "false"))]
        match ensureStorageBucketExists bucketName cfg.region env.st env.storageFaults with
        | (.error e, _, bevs) => fail e (evs2 ++ bevs)
        | (.ok bucket, st1, bevs) =>
          let evs3 := evs2 ++ bevs
          match zipFiles files env.fs env.cwd with
          | (.error e, zevs) => fail e (evs3 ++ zevs)
          | (.ok _, zevs) =>
            match uploadToStorageBucket bucket ZIP_FILE_NAME env.uploadResult with
            | (.error e, uevs) => fail e (evs3 ++ zevs ++ uevs)
            | (.ok _, uevs) =>
              let evs4 := evs3 ++ zevs ++ uevs ++ [Event.log "info" "Source code uploaded successfully"]
              match ensureArtifactRegistryRepoExists currentProjectId cfg.region REPO_NAME "DOCKER" st1 env.repoFaults with
              | (.error e, _, revs) => fail e (evs4 ++ revs)
              | (.ok _, _, revs) =>
                let evs5 := evs4 ++ revs
                match triggerCloudBuild currentProjectId cfg.region bucketName ZIP_FILE_NAME REPO_NAME imageUrl hasDockerfile env.build with
                | (.hang, tevs) => (.hang, evs5 ++ tevs)
                | (.exited c, tevs) => (.exited c, evs5 ++ tevs)
                | (.err e, tevs) => fail e (evs5 ++ tevs)
                | (.ok completed, tevs) =>
                  let evs6 := evs5 ++ tevs
                  match completed.images with
                  | [] => fail "TypeError: cannot read first image of build results" evs6
                  | builtImageUrl :: _ =>
                    match deployToCloudRunV1 currentProjectId cfg.region cfg.serviceName builtImageUrl env.run with
                    | (.error e, devs) => fail e (evs6 ++ devs)
                    | (.ok svc, devs) =>
                      (.ok svc, evs6 ++ devs ++ [Event.log "info" "Deployment Completed Successfully"])

/-- Model of `deploy` of the earlier snapshot (src/cloud-run-deploy.js
lines 461-533): validates `files`, resolves or bootstraps the project
via `ensureProjectExists` (absent `projectId` means a new project is
created and billing attachment attempted), then runs the pipeline body.
A bootstrap error is caught by the same `try`, logging
`Deployment Failed` and rethrowing. -/
def deployV1 (cfg : DeployConfig) (env : DeployEnv) : Outcome ServiceResp × List Event :=
  match cfg.files with
  | .missing | .notArray | .arr [] =>
    (.err "Files array is required and cannot be empty.",
      [Event.log "error" "Error: files array is required in the configuration object and cannot be empty."])
  | .arr files =>
    match ensureProjectExists cfg.projectId env.billing with
    | (.error e, pevs) =>
      (.err e, pevs ++ [Event.log "error" "Deployment Failed", Event.log "error" e])
    | (.ok currentProjectId, pevs) =>
      let (res, evs) := deployV1Pipeline currentProjectId cfg files env
      (res, pevs ++ evs)

/-- Model of `deploy` of the later snapshot (src/cloud-run-deploy.js
lines 1407-1501): requires a truthy `projectId` (otherwise it logs and
calls `process.exit(1)` — no bootstrap), requires a non-empty `files`
array (otherwise `process.exit(1)`), then runs the same pipeline with
the later snapshot's API list, the folder-aware Dockerfile scan and the
dry-run deploy step.  Every caught error logs `Deployment Failed:` and
rethrows. -/
def deployV2 (cfg : DeployConfig) (env : DeployEnv) : Outcome ServiceResp × List Event :=
  let pidFalsy := match cfg.projectId with
    | none => true
    | some p => p = ""
  if pidFalsy then
    (.exited 1, [Event.log "error" "Error: projectId is required in the configuration object."])
  else
    match cfg.files with
    | .missing | .notArray | .arr [] =>
      (.exited 1, [Event.log "error" "Error: files array is required in the configuration object."])
    | .arr files =>
      let projectId := cfg.projectId.getD ""
      let fail : String → List Event → Outcome ServiceResp × List Event := fun e evs =>
        (.err e, evs ++ [Event.log "error" ("Deployment Failed: " ++ e)])
      let (ares, aevs) := ensureApisEnabled projectId REQUIRED_APIS_V2 env.api
      match ares with
      | .error e => fail e aevs
      | .ok _ =>
        let bucketName := projectId ++ "-source-bucket"
        let imageUrl := cfg.region ++ "-docker.pkg.dev/" ++ projectId ++ "/" ++ REPO_NAME ++ "/" ++ cfg.serviceName ++ ":" ++ IMAGE_TAG
        let evs1 := aevs ++ [Event.log "info" ("Project: " ++ projectId),
          Event.log "info" ("Region: " ++ cfg.region),
          Event.log "info" ("Service Name: " ++ cfg.serviceName),
          Event.log "info" ("Files to deploy: " ++ toString files.length)]
        match detectDockerfileV2 files env.fs env.cwd with
        | .error e => fail e evs1
        | .ok hasDockerfile =>
          let evs2 := evs1 ++ [Event.log "info" ("Dockerfile: " ++ (if hasDockerfile then "true" else "false"))]
          match ensureStorageBucketExists bucketName cfg.region env.st env.storageFaults with
          | (.error e, _, bevs) => fail e (evs2 ++ bevs)
          | (.ok bucket, st1, bevs) =>
            let evs3 := evs2 ++ bevs
            match zipFiles files env.fs env.cwd with
            | (.error e, zevs) => fail e (evs3 ++ zevs)
            | (.ok _, zevs) =>
              match uploadToStorageBucket bucket ZIP_FILE_NAME env.uploadResult with
              | (.error e, uevs) => fail e (evs3 ++ zevs ++ uevs)
              | (.ok _, uevs) =>
                let evs4 := evs3 ++ zevs ++ uevs ++ [Event.log "info" "Source code uploaded successfully"]
                match ensureArtifactRegistryRepoExists projectId cfg.region REPO_NAME "DOCKER" st1 env.repoFaults with
                | (.error e, _, revs) => fail e (evs4 ++ revs)
                | (.ok _, _, revs) =>
                  let evs5 := evs4 ++ revs
                  match triggerCloudBuild projectId cfg.region bucketName ZIP_FILE_NAME REPO_NAME imageUrl hasDockerfile env.build with
                  | (.hang, tevs) => (.hang, evs5 ++ tevs)
                  | (.exited c, tevs) => (.exited c, evs5 ++ tevs)
                  | (.err e, tevs) => fail e (evs5 ++ tevs)
                  | (.ok completed, tevs) =>
                    let evs6 := evs5 ++ tevs
                    match completed.images with
                    | [] => fail "TypeError: cannot read first image of build results" evs6
                    | builtImageUrl :: _ =>
                      match deployToCloudRunV2 projectId cfg.region cfg.serviceName builtImageUrl env.run with
                      | (.error e, devs) => fail e (evs6 ++ devs)
                      | (.ok svc, devs) =>
                        (.ok svc, evs6 ++ devs ++ [Event.log "info" "Deployment Completed Successfully"])

/-- Whether an event is a `getBuild` polling call. -/
def Event.isGetBuild : Event → Bool
  | .getBuildCall _ _ => true
  | _ => false

/-- Whether an event is a wait between poll ticks. -/
def Event.isSleepEv : Event → Bool
  | .sleep _ => true
  | _ => false

/-- Whether an event is the fixed 5000 ms wait of the poll loop. -/
def Event.isSleep5000 : Event → Bool
  | .sleep ms => ms == 5000
  | _ => false

/-- Whether an event is a bucket-creation call. -/
def Event.isCreateBucket : Event → Bool
  | .createBucketCall _ _ => true
  | _ => false

/-- Whether an event is a repository-creation call. -/
def Event.isCreateRepo : Event → Bool
  | .createRepositoryCall _ _ => true
  | _ => false

/-- Whether the billing-attachment phase of the bootstrap will fail for
the created project: no open account is found (including no accounts at
all), the attachment call returns `null`, or it reports billing not
enabled. -/
def billingAttachFailsB (pid : String) (env : BillingEnv) : Bool :=
  match env.accounts.find? (fun acc => acc.isOpen) with
  | none => true
  | some acc =>
    match env.attach pid acc.name with
    | none => true
    | some info => !info.billingEnabled

/-- Whether the billing-attachment phase of the bootstrap will succeed:
an open account is found and the attachment reports billing enabled. -/
def billingAttachSucceedsB (pid : String) (env : BillingEnv) : Bool :=
  match env.accounts.find? (fun acc => acc.isOpen) with
  | none => false
  | some acc =>
    match env.attach pid acc.name with
    | none => false
    | some info => info.billingEnabled

/-- Whether a `files` element matches one of the two accepted variants
of the archive builder: a path string, or an object carrying both the
`filename` and `content` keys. -/
def JSFile.isWellFormed : JSFile → Bool
  | .str _ => true
  | .obj hasFilename hasContent _ _ => hasFilename && hasContent
  | .other _ => false

/-- Whether a `files` element is a path string that does not resolve
(after the `/c` rewrite) to an existing file or directory. -/
def isMissingPath (fs : FS) (cwd : String) : JSFile → Bool
  | .str p => !(fs.existsB (pathResolve cwd (rewriteWslPath p)))
  | _ => false

/-- Whether the `files` list has the single-path-string shape that the
later `deploy` treats specially for Dockerfile detection. -/
def isSingleStr : List JSFile → Bool
  | [JSFile.str _] => true
  | _ => false

/-- Oracle fixture: billing attachment always reports billing enabled. -/
def attachAlwaysEnabled : String → String → Option AttachInfo := fun _ _ => some ⟨true⟩

/-- Oracle fixture: every API already enabled. -/
def apiAllEnabled : ApiEnv := ⟨fun _ => .ok "ENABLED", fun _ => .ok ()⟩

/-- Oracle fixture: a build that answers `QUEUED`, `WORKING`, `WORKING`
and then a successful terminal status with one result image. -/
def buildFourPolls : BuildEnv :=
  ⟨.ok "bld-1",
   [⟨"QUEUED", "https://logs.example", []⟩,
    ⟨"WORKING", "https://logs.example", []⟩,
    ⟨"WORKING", "https://logs.example", []⟩,
    ⟨"SUCCESS", "https://logs.example", ["europe-west1-docker.pkg.dev/p/mcp-cloud-run-deployments/app:latest"]⟩]⟩

/-- Oracle fixture: the service does not exist yet, dry run passes, the
create operation succeeds. -/
def runEnvCreateOk : RunEnv := ⟨.notFound, none, .ok ⟨"https://app-xyz-ew.a.run.app"⟩⟩

/-- Billing fixture: project creation succeeds but the only billing
account is closed, so no open account can be found. -/
def billingEnvNoOpen : BillingEnv :=
  ⟨.ok (some "mcp-foo-bar"), [⟨"billingAccounts/000000", "Closed Account", false⟩], attachAlwaysEnabled⟩

/-- Billing fixture: project creation succeeds and an open billing
account attaches successfully. -/
def billingEnvOpenOk : BillingEnv :=
  ⟨.ok (some "mcp-foo-bar"), [⟨"billingAccounts/000000", "My Billing Account", true⟩], attachAlwaysEnabled⟩

/-- Deploy environment over `billingEnvNoOpen` with every other remote
healthy. -/
def deployEnvNoOpenBilling : DeployEnv :=
  ⟨billingEnvNoOpen, apiAllEnabled, ⟨[], []⟩, ⟨none, none⟩, ⟨none, none⟩, .ok (), ⟨[]⟩, "/w",
   buildFourPolls, runEnvCreateOk⟩

/-- Deploy environment over `billingEnvOpenOk` with every other remote
healthy. -/
def deployEnvBootstrapOk : DeployEnv :=
  ⟨billingEnvOpenOk, apiAllEnabled, ⟨[], []⟩, ⟨none, none⟩, ⟨none, none⟩, .ok (), ⟨[]⟩, "/w",
   buildFourPolls, runEnvCreateOk⟩

/-- An inline `files` entry. -/
def inlineIndexJs : JSFile := .obj true true "index.js" "console.log(1)"

/-- A deployment request with no `projectId` and one inline file. -/
def cfgNoProjectInline : DeployConfig := { projectId := none, files := .arr [inlineIndexJs] }

/-- Filesystem fixture for Dockerfile detection: a project folder that
contains a file named `DOCKERFILE` (upper case). -/
def fsFolderUpper : FS := ⟨[("/proj", true), ("/proj/DOCKERFILE", false)]⟩

/-- A dry-run error of gRPC code 3 whose message has nothing to do with
the make-public setting. -/
def dryErrCode3 : DryErr := ⟨"service image field is malformed", 3⟩

/-- Cloud Run oracle fixture: dry run fails with `dryErrCode3`, the
actual create succeeds. -/
def runEnvCode3 : RunEnv := ⟨.notFound, some dryErrCode3, .ok ⟨"https://app-xyz-ew.a.run.app"⟩⟩

/-- A cloud state in which the standard bucket and shared repository
already exist. -/
def stExisting : CloudState :=
  ⟨["p-source-bucket"], ["projects/p/locations/europe-west1/repositories/mcp-cloud-run-deployments"]⟩

/-- The empty cloud state. -/
def stEmpty : CloudState := ⟨[], []⟩

/-- Whether an event is the dry-run validation call. -/
def Event.isDryRunValidate : Event → Bool
  | .dryRunValidateCall _ => true
  | _ => false

/-- Whether an event is an actual create-or-update service call. -/
def Event.isDeployCall : Event → Bool
  | .createServiceCall _ => true
  | .updateServiceCall _ => true
  | _ => false

/-- Whether an event is an actual create-or-update service call that
still carries the make-public setting. -/
def Event.isPublicDeployCall : Event → Bool
  | .createServiceCall b => b
  | .updateServiceCall b => b
  | _ => false

/-- C10: for every path-string file input, the archive builder first
rewrites a leading `/c` by prepending `/mnt` (so `/config/app.js` is
looked up as `/mnt/config/app.js`), leaves other paths unchanged, and
then resolves and probes exactly the rewritten path, failing with
`File or directory not found` at that path when it does not exist. -/
theorem C10_wsl_path_rewrite (p : String) (fs : FS) (cwd : String) (rest : List JSFile) :
    rewriteWslPath p = (if strStartsWith p "/c" then "/mnt" ++ p else p)
    ∧ (zipFilesGo fs cwd (JSFile.str p :: rest)).2.head? =
        some (Event.localExistsCheck (pathResolve cwd (rewriteWslPath p)))
    ∧ (zipFilesGo fs cwd (JSFile.str p :: rest)).1 =
        (if fs.existsB (pathResolve cwd (rewriteWslPath p)) then (zipFilesGo fs cwd rest).1
         else .error ("File or directory not found: " ++ pathResolve cwd (rewriteWslPath p))) := by
  refine ⟨rfl, ?_, ?_⟩
  · simp only [zipFilesGo]
    split
    · split <;> rfl
    · rfl
  · simp only [zipFilesGo]
    split
    · split <;> rfl
    · rfl

/-- C6 (code bug): `roles/iam.securityAdmin` is literally on the fixed
denylist, yet the batch `["roles/iam.securityAdmin"]` is not refused —
the lowercased role `roles/iam.securityadmin` matches no denylist entry,
so the handler proceeds to grant the role.  The denylist's mixed-case
entries are unreachable by the `role.toLowerCase()` comparison. -/
theorem C6_securityAdmin_not_refused :
    "roles/iam.securityAdmin" ∈ forbiddenRoles
    ∧ firstForbiddenRole ["roles/iam.securityAdmin"] = none
    ∧ (add_IAM_Roles "p" "sa@p.iam.gserviceaccount.com" ["roles/iam.securityAdmin"] (fun _ => true)).1
        = .granted "IAM roles roles/iam.securityAdmin successfully added to service account sa@p.iam.gserviceaccount.com in project p."
    ∧ Event.grantRoleCall "p" "sa@p.iam.gserviceaccount.com" "roles/iam.securityAdmin"
        ∈ (add_IAM_Roles "p" "sa@p.iam.gserviceaccount.com" ["roles/iam.securityAdmin"] (fun _ => true)).2
    ∧ firstForbiddenRole ["roles/OWNER"] = some "roles/OWNER" := by decide

/-- C3: for every deployment request whose `files` argument is missing,
not an array, or empty, both snapshots of `deploy` abort fatally at once
(the earlier one throws `Files array is required and cannot be empty.`,
the later one calls `process.exit(1)`), and neither emits a single
remote call. -/
theorem C3_invalid_files_fatal_no_remote (cfg : DeployConfig) (env : DeployEnv)
    (h : cfg.files.isInvalid = true) :
    ((deployV1 cfg env).1 = .err "Files array is required and cannot be empty."
      ∧ (deployV1 cfg env).2.all (fun e => !e.isRemote) = true)
    ∧ ((deployV2 cfg env).1 = .exited 1
      ∧ (deployV2 cfg env).2.all (fun e => !e.isRemote) = true) := by
  rcases hc : cfg.files with _ | _ | files
  · refine ⟨⟨?_, ?_⟩, ?_, ?_⟩ <;> simp only [deployV1, deployV2, hc] <;>
      first
        | rfl
        | (split <;> first | rfl | (split <;> rfl))
  · refine ⟨⟨?_, ?_⟩, ?_, ?_⟩ <;> simp only [deployV1, deployV2, hc] <;>
      first
        | rfl
        | (split <;> first | rfl | (split <;> rfl))
  · rw [hc] at h
    simp only [FilesArg.isInvalid, List.isEmpty_iff] at h
    subst h
    refine ⟨⟨?_, ?_⟩, ?_, ?_⟩ <;> simp only [deployV1, deployV2, hc] <;>
      first
        | rfl
        | (split <;> first | rfl | (split <;> rfl))

/-- C3 witness: a concrete request with an empty `files` array. -/
theorem C3_invalid_files_fatal_no_remote_witness :
    ({ projectId := some "p", files := .arr [] } : DeployConfig).files.isInvalid = true
    ∧ ((deployV1 { projectId := some "p", files := .arr [] } deployEnvBootstrapOk).1
        = .err "Files array is required and cannot be empty."
      ∧ (deployV1 { projectId := some "p", files := .arr [] } deployEnvBootstrapOk).2.all (fun e => !e.isRemote) = true)
    ∧ ((deployV2 { projectId := some "p", files := .arr [] } deployEnvBootstrapOk).1 = .exited 1
      ∧ (deployV2 { projectId := some "p", files := .arr [] } deployEnvBootstrapOk).2.all (fun e => !e.isRemote) = true) :=
  ⟨by decide, (C3_invalid_files_fatal_no_remote _ deployEnvBootstrapOk (by decide)).1,
    (C3_invalid_files_fatal_no_remote _ deployEnvBootstrapOk (by decide)).2⟩

/-- C1 (counterexample): with no `projectId`, successful project
creation and no open billing account, `deploy` (earlier snapshot, the
one with a bootstrap) aborts with the thrown bootstrap error; the only
remote calls made are the bootstrap's own — the pipeline does not
continue with the created project. -/
theorem C1_counterexample_bootstrap_aborts :
    (deployV1 cfgNoProjectInline deployEnvNoOpenBilling).1 =
      .err "Project mcp-foo-bar was created, but no open billing accounts found. Manual billing setup required."
    ∧ (deployV1 cfgNoProjectInline deployEnvNoOpenBilling).2.all
        (fun e => !e.isRemote || e == Event.createProjectCall || e == Event.listBillingAccountsCall) = true := by
  decide

/-- C2 (counterexample): the later snapshot's `deploy`, on a request
with a non-empty `files` list and no `projectId`, exits the process with
code 1 without making any remote call — in particular without any
project-creation bootstrap — even though the environment would let a
bootstrap succeed. -/
theorem C2_counterexample_deployV2_exits_without_bootstrap :
    (deployV2 cfgNoProjectInline deployEnvBootstrapOk).1 = .exited 1
    ∧ (deployV2 cfgNoProjectInline deployEnvBootstrapOk).2.all (fun e => !e.isRemote) = true := by
  decide

/-- C5 (counterexample): a single-directory input whose folder contains
a file named `DOCKERFILE` — base name equal to `dockerfile` when
compared case-insensitively — selects the buildpack strategy
(`hasDockerfile = false`), because the folder branch probes only the
exact names `Dockerfile` and `dockerfile`. -/
theorem C5_counterexample_upper_dockerfile_in_folder :
    detectDockerfileV2 [.str "/proj"] fsFolderUpper "/w" = .ok false
    ∧ ("/proj/DOCKERFILE", false) ∈ fsFolderUpper.entries
    ∧ strStartsWith "/proj/DOCKERFILE" "/proj/" = true
    ∧ strToLower (basename "/proj/DOCKERFILE") = "dockerfile" := by
  decide

/-- C7 (counterexample): a dry-run error of gRPC code 3 whose message
mentions neither `invokeriamdisabled` nor `iam policy violation` — a
validation failure of a different class — does not abort the
deployment: the step retries without the make-public setting and
succeeds. -/
theorem C7_counterexample_code3_retried :
    (deployToCloudRunV2 "p" "europe-west1" "app" "img" runEnvCode3).1 = .ok ⟨"https://app-xyz-ew.a.run.app"⟩
    ∧ Event.createServiceCall false ∈ (deployToCloudRunV2 "p" "europe-west1" "app" "img" runEnvCode3).2
    ∧ strIncludes (strToLower dryErrCode3.message) "invokeriamdisabled" = false
    ∧ strIncludes (strToLower dryErrCode3.message) "iam policy violation" = false
    ∧ invokerIamHeuristic dryErrCode3 = true := by
  decide

/-- The Dockerfile scan loop computes `List.any` of the per-element
case-insensitive base-name test. -/
theorem loopDetectDockerfile_eq_any (files : List JSFile) :
    loopDetectDockerfile files = files.any isDockerfileElem := by
  induction files with
  | nil => rfl
  | cons f rest ih =>
    cases f with
    | str p =>
      simp only [loopDetectDockerfile, List.any_cons, isDockerfileElem]
      split
      · next h => simp [h]
      · next h => simp [h, ih]
    | obj hf hc fn c =>
      simp only [loopDetectDockerfile, List.any_cons, isDockerfileElem]
      split
      · next h => simp [h]
      · next h => simp only [Bool.not_eq_true] at h; simp [h, ih]
    | other r =>
      simp only [loopDetectDockerfile, List.any_cons, isDockerfileElem, ih, Bool.false_or]

/-- A `files` list that is not a single path string goes through the
scan loop in the later snapshot's detection. -/
theorem detectDockerfileV2_not_single (files : List JSFile) (fs : FS) (cwd : String)
    (h : isSingleStr files = false) :
    detectDockerfileV2 files fs cwd = .ok (loopDetectDockerfile files) := by
  cases files with
  | nil => rfl
  | cons f tail =>
    cases tail with
    | nil =>
      cases f with
      | str s => simp [isSingleStr] at h
      | obj a b c d => rfl
      | other r => rfl
    | cons g rest => cases f <;> rfl

/-- C5 (amended): Dockerfile detection is case-insensitive on base
names for path/inline inputs — the earlier snapshot always, the later
snapshot whenever the input is not a single path string — but for a
single path naming an existing directory, the later snapshot probes
only the two exact names `Dockerfile` and `dockerfile` inside the
folder (other case variants such as `DOCKERFILE` are not found), and a
single path naming an existing plain file goes through the
case-insensitive scan. -/
theorem C5_dockerfile_detection (files : List JSFile) (fs : FS) (cwd s t : String)
    (hshape : isSingleStr files = false)
    (hs : fs.stat (pathResolve cwd s) = some true)
    (ht : fs.stat (pathResolve cwd t) = some false) :
    detectDockerfileV1 files = files.any isDockerfileElem
    ∧ detectDockerfileV2 files fs cwd = .ok (files.any isDockerfileElem)
    ∧ detectDockerfileV2 [JSFile.str s] fs cwd =
        .ok (fs.existsB (pathResolve cwd (joinPath s "Dockerfile")) ||
             fs.existsB (pathResolve cwd (joinPath s "dockerfile")))
    ∧ detectDockerfileV2 [JSFile.str t] fs cwd = .ok (isDockerfileElem (JSFile.str t)) := by
  refine ⟨loopDetectDockerfile_eq_any files, ?_, ?_, ?_⟩
  · rw [detectDockerfileV2_not_single files fs cwd hshape, loopDetectDockerfile_eq_any]
  · simp only [detectDockerfileV2]
    rw [hs]
  · simp only [detectDockerfileV2]
    rw [ht]
    simp only [loopDetectDockerfile, isDockerfileElem]
    split <;> simp_all

/-- C5 witness: the spec's two file lists, a directory containing only
an upper-case `DOCKERFILE`, and that same inner file as a single-file
input. -/
theorem C5_dockerfile_detection_witness :
    (detectDockerfileV1 [.str "app/Dockerfile", .str "app/main.go"] = true
      ∧ detectDockerfileV1 [.str "app/main.go", .str "app/go.mod"] = false)
    ∧ detectDockerfileV2 [.str "app/Dockerfile", .str "app/main.go"] fsFolderUpper "/w"
        = .ok ([JSFile.str "app/Dockerfile", JSFile.str "app/main.go"].any isDockerfileElem)
    ∧ detectDockerfileV2 [JSFile.str "/proj"] fsFolderUpper "/w" =
        .ok (fsFolderUpper.existsB (pathResolve "/w" (joinPath "/proj" "Dockerfile")) ||
             fsFolderUpper.existsB (pathResolve "/w" (joinPath "/proj" "dockerfile")))
    ∧ detectDockerfileV2 [JSFile.str "/proj/DOCKERFILE"] fsFolderUpper "/w"
        = .ok (isDockerfileElem (JSFile.str "/proj/DOCKERFILE")) :=
  ⟨⟨by decide, by decide⟩,
    (C5_dockerfile_detection [.str "app/Dockerfile", .str "app/main.go"] fsFolderUpper "/w"
      "/proj" "/proj/DOCKERFILE" (by decide) (by decide) (by decide)).2.1,
    (C5_dockerfile_detection [.str "app/Dockerfile", .str "app/main.go"] fsFolderUpper "/w"
      "/proj" "/proj/DOCKERFILE" (by decide) (by decide) (by decide)).2.2.1,
    (C5_dockerfile_detection [.str "app/Dockerfile", .str "app/main.go"] fsFolderUpper "/w"
      "/proj" "/proj/DOCKERFILE" (by decide) (by decide) (by decide)).2.2.2⟩

/-- C7 (amended): when the pre-flight dry run fails, the step retries
exactly once without the make-public setting precisely when the error
signal matches the fallback heuristic — a non-empty message mentioning
`invokeriamdisabled` or `iam policy violation`, or any error of gRPC
code 3 (`INVALID_ARGUMENT`), so an invalid-argument failure of a
different validation class is also retried rather than aborted; a
dry-run failure outside the heuristic aborts the deployment with an
error, and no create/update call is made. -/
theorem C7_dry_run_fallback (projectId location serviceId imgUrl : String) (env : RunEnv)
    (e : DryErr)
    (hlook : env.lookup = RunLookup.notFound ∨ env.lookup = RunLookup.found)
    (hdry : env.dryRunErr = some e) :
    (invokerIamHeuristic e = true →
      (deployToCloudRunV2 projectId location serviceId imgUrl env).2.countP Event.isDryRunValidate = 1
      ∧ (deployToCloudRunV2 projectId location serviceId imgUrl env).2.countP Event.isDeployCall = 1
      ∧ (deployToCloudRunV2 projectId location serviceId imgUrl env).2.countP Event.isPublicDeployCall = 0)
    ∧ (invokerIamHeuristic e = false →
      (deployToCloudRunV2 projectId location serviceId imgUrl env).1 =
        .error ("Dry run validation failed for service " ++ serviceId ++ ": " ++ e.message)
      ∧ (deployToCloudRunV2 projectId location serviceId imgUrl env).2.countP Event.isDeployCall = 0) := by
  unfold deployToCloudRunV2 checkCloudRunServiceExists
  rcases hlook with hl | hl <;> rw [hl, hdry] <;>
    constructor <;> intro hh <;>
    rcases hd : env.deployResult with m | resp <;>
      simp [hh, hd, List.countP_cons, List.countP_nil, List.countP_append,
        Event.isDryRunValidate, Event.isDeployCall, Event.isPublicDeployCall]

/-- C7 witness: the service-absent environment whose dry run fails with
a code-3 error unrelated to the make-public setting. -/
theorem C7_dry_run_fallback_witness :
    invokerIamHeuristic dryErrCode3 = true
    ∧ ((deployToCloudRunV2 "p" "europe-west1" "app" "img" runEnvCode3).2.countP Event.isDryRunValidate = 1
      ∧ (deployToCloudRunV2 "p" "europe-west1" "app" "img" runEnvCode3).2.countP Event.isDeployCall = 1
      ∧ (deployToCloudRunV2 "p" "europe-west1" "app" "img" runEnvCode3).2.countP Event.isPublicDeployCall = 0) :=
  ⟨by decide,
    (C7_dry_run_fallback "p" "europe-west1" "app" "img" runEnvCode3 dryErrCode3
      (Or.inl rfl) rfl).1 (by decide)⟩

/-- C8: an ensure step whose remote lookup reports the resource present
returns the existing handle, leaves the cloud state unchanged and makes
no creation call; consequently a second call, run on the state produced
by a first call that created the resource, takes the exists branch and
performs no creation side effect — for both the storage-bucket step and
the registry-repository step. -/
theorem C8_ensure_steps_idempotent (bucketName location projectId repoLoc repositoryId format : String)
    (st st2 : CloudState)
    (hb : st.buckets.contains bucketName = true)
    (hr : st.repos.contains ("projects/" ++ projectId ++ "/locations/" ++ repoLoc ++ "/repositories/" ++ repositoryId) = true)
    (hb2 : st2.buckets.contains bucketName = false)
    (hr2 : st2.repos.contains ("projects/" ++ projectId ++ "/locations/" ++ repoLoc ++ "/repositories/" ++ repositoryId) = false) :
    (ensureStorageBucketExists bucketName location st ⟨none, none⟩ =
      (.ok bucketName, st,
        [Event.bucketExistsCall bucketName, Event.log "info" ("Bucket " ++ bucketName ++ " already exists.")]))
    ∧ (ensureArtifactRegistryRepoExists projectId repoLoc repositoryId format st ⟨none, none⟩ =
      (.ok ("projects/" ++ projectId ++ "/locations/" ++ repoLoc ++ "/repositories/" ++ repositoryId), st,
        [Event.getRepositoryCall ("projects/" ++ projectId ++ "/locations/" ++ repoLoc ++ "/repositories/" ++ repositoryId),
         Event.log "info" ("Repository " ++ repositoryId ++ " already exists in " ++ repoLoc ++ ".")]))
    ∧ ((ensureStorageBucketExists bucketName location st2 ⟨none, none⟩).2.2.countP Event.isCreateBucket = 1
      ∧ (ensureStorageBucketExists bucketName location
          (ensureStorageBucketExists bucketName location st2 ⟨none, none⟩).2.1 ⟨none, none⟩).2.1
            = (ensureStorageBucketExists bucketName location st2 ⟨none, none⟩).2.1
      ∧ (ensureStorageBucketExists bucketName location
          (ensureStorageBucketExists bucketName location st2 ⟨none, none⟩).2.1 ⟨none, none⟩).2.2.countP
            Event.isCreateBucket = 0)
    ∧ ((ensureArtifactRegistryRepoExists projectId repoLoc repositoryId format st2 ⟨none, none⟩).2.2.countP Event.isCreateRepo = 1
      ∧ (ensureArtifactRegistryRepoExists projectId repoLoc repositoryId format
          (ensureArtifactRegistryRepoExists projectId repoLoc repositoryId format st2 ⟨none, none⟩).2.1 ⟨none, none⟩).2.1
            = (ensureArtifactRegistryRepoExists projectId repoLoc repositoryId format st2 ⟨none, none⟩).2.1
      ∧ (ensureArtifactRegistryRepoExists projectId repoLoc repositoryId format
          (ensureArtifactRegistryRepoExists projectId repoLoc repositoryId format st2 ⟨none, none⟩).2.1 ⟨none, none⟩).2.2.countP
            Event.isCreateRepo = 0) := by
  have hb' : bucketName ∈ st.buckets := by simpa using hb
  have hr' : "projects/" ++ projectId ++ "/locations/" ++ repoLoc ++ "/repositories/" ++ repositoryId ∈ st.repos := by
    simpa using hr
  have hb2' : bucketName ∉ st2.buckets := by simpa using hb2
  have hr2' : "projects/" ++ projectId ++ "/locations/" ++ repoLoc ++ "/repositories/" ++ repositoryId ∉ st2.repos := by
    simpa using hr2
  refine ⟨?_, ?_, ?_, ?_⟩
  · simp [ensureStorageBucketExists, hb']
  · simp [ensureArtifactRegistryRepoExists, hr']
  · simp [ensureStorageBucketExists, hb2', List.countP_cons, List.countP_nil,
      List.countP_append, Event.isCreateBucket]
  · simp [ensureArtifactRegistryRepoExists, hr2', List.countP_cons, List.countP_nil,
      List.countP_append, Event.isCreateRepo]

/-- C8 witness: a state in which bucket and repository exist, and an
empty state for the create-then-recheck scenario. -/
theorem C8_ensure_steps_idempotent_witness :
    (ensureStorageBucketExists "p-source-bucket" "europe-west1" stExisting ⟨none, none⟩ =
      (.ok "p-source-bucket", stExisting,
        [Event.bucketExistsCall "p-source-bucket",
         Event.log "info" ("Bucket " ++ "p-source-bucket" ++ " already exists.")]))
    ∧ ((ensureStorageBucketExists "p-source-bucket" "europe-west1" stEmpty ⟨none, none⟩).2.2.countP Event.isCreateBucket = 1
      ∧ (ensureStorageBucketExists "p-source-bucket" "europe-west1"
          (ensureStorageBucketExists "p-source-bucket" "europe-west1" stEmpty ⟨none, none⟩).2.1 ⟨none, none⟩).2.1
            = (ensureStorageBucketExists "p-source-bucket" "europe-west1" stEmpty ⟨none, none⟩).2.1
      ∧ (ensureStorageBucketExists "p-source-bucket" "europe-west1"
          (ensureStorageBucketExists "p-source-bucket" "europe-west1" stEmpty ⟨none, none⟩).2.1 ⟨none, none⟩).2.2.countP
            Event.isCreateBucket = 0) :=
  ⟨(C8_ensure_steps_idempotent "p-source-bucket" "europe-west1" "p" "europe-west1"
      "mcp-cloud-run-deployments" "DOCKER" stExisting stEmpty
      (by decide) (by decide) (by decide) (by decide)).1,
    (C8_ensure_steps_idempotent "p-source-bucket" "europe-west1" "p" "europe-west1"
      "mcp-cloud-run-deployments" "DOCKER" stExisting stEmpty
      (by decide) (by decide) (by decide) (by decide)).2.2.1⟩

/-- The poll loop stops at the first terminal answer: it returns that
answer, makes one `getBuild` call per consumed answer, and waits a
fixed 5000 ms once per non-terminal answer. -/
theorem pollBuild_first_terminal (projectId buildId : String) (pre rest : List BuildResp)
    (r : BuildResp) (hpre : ∀ s ∈ pre, isTerminalBuildStatus s.status = false)
    (hr : isTerminalBuildStatus r.status = true) :
    (pollBuild projectId buildId (pre ++ r :: rest)).1 = some r
    ∧ (pollBuild projectId buildId (pre ++ r :: rest)).2.countP Event.isGetBuild = pre.length + 1
    ∧ (pollBuild projectId buildId (pre ++ r :: rest)).2.countP Event.isSleepEv = pre.length
    ∧ (pollBuild projectId buildId (pre ++ r :: rest)).2.countP Event.isSleep5000 = pre.length := by
  induction pre with
  | nil =>
    simp [pollBuild, hr, List.countP_cons, List.countP_nil, Event.isGetBuild,
      Event.isSleepEv, Event.isSleep5000]
  | cons s pre ih =>
    have hs : isTerminalBuildStatus s.status = false := hpre s (List.mem_cons_self s pre)
    obtain ⟨h1, h2, h3, h4⟩ := ih (fun x hx => hpre x (List.mem_cons_of_mem s hx))
    rcases hp : pollBuild projectId buildId (pre ++ r :: rest) with ⟨res, evs⟩
    rw [hp] at h1 h2 h3 h4
    simp only at h1 h2 h3 h4
    simp [pollBuild, hs, hp, List.countP_cons, List.countP_nil, Event.isGetBuild,
      Event.isSleepEv, Event.isSleep5000, h1, h2, h3, h4]

/-- C4: given a build whose status answers consist of non-terminal
statuses followed by a first terminal one, the poller makes exactly one
`getBuild` call per answer up to and including the first terminal one —
no polling call after it — and waits a fixed 5000 ms between
consecutive polls; on a terminal `SUCCESS` it returns the completed
build, logging its first declared result image, and on any other
terminal status it raises `Cloud Build failed: <status>` after
reporting the build's log URL. -/
theorem C4_build_poller (projectId location sourceBucketName sourceBlobName targetRepoName targetImageUrl buildId : String)
    (hasDockerfile : Bool) (pre rest : List BuildResp) (r : BuildResp)
    (hpre : ∀ s ∈ pre, isTerminalBuildStatus s.status = false)
    (hr : isTerminalBuildStatus r.status = true) :
    (triggerCloudBuild projectId location sourceBucketName sourceBlobName targetRepoName
        targetImageUrl hasDockerfile ⟨.ok buildId, pre ++ r :: rest⟩).2.countP Event.isGetBuild = pre.length + 1
    ∧ (triggerCloudBuild projectId location sourceBucketName sourceBlobName targetRepoName
        targetImageUrl hasDockerfile ⟨.ok buildId, pre ++ r :: rest⟩).2.countP Event.isSleepEv = pre.length
    ∧ (triggerCloudBuild projectId location sourceBucketName sourceBlobName targetRepoName
        targetImageUrl hasDockerfile ⟨.ok buildId, pre ++ r :: rest⟩).2.countP Event.isSleep5000 = pre.length
    ∧ (∀ img imgs, r.status = "SUCCESS" → r.images = img :: imgs →
        (triggerCloudBuild projectId location sourceBucketName sourceBlobName targetRepoName
          targetImageUrl hasDockerfile ⟨.ok buildId, pre ++ r :: rest⟩).1 = .ok r
        ∧ Event.log "info" ("Image built: " ++ img) ∈
            (triggerCloudBuild projectId location sourceBucketName sourceBlobName targetRepoName
              targetImageUrl hasDockerfile ⟨.ok buildId, pre ++ r :: rest⟩).2)
    ∧ (r.status ≠ "SUCCESS" →
        (triggerCloudBuild projectId location sourceBucketName sourceBlobName targetRepoName
          targetImageUrl hasDockerfile ⟨.ok buildId, pre ++ r :: rest⟩).1 = .err ("Cloud Build failed: " ++ r.status)
        ∧ Event.log "info" ("Build logs: " ++ r.logUrl) ∈
            (triggerCloudBuild projectId location sourceBucketName sourceBlobName targetRepoName
              targetImageUrl hasDockerfile ⟨.ok buildId, pre ++ r :: rest⟩).2) := by
  obtain ⟨h1, h2, h3, h4⟩ := pollBuild_first_terminal projectId buildId pre rest r hpre hr
  unfold triggerCloudBuild
  rcases hp : pollBuild projectId buildId (pre ++ r :: rest) with ⟨res, pevs⟩
  rw [hp] at h1 h2 h3 h4
  simp only at h1 h2 h3 h4
  subst h1
  refine ⟨?_, ?_, ?_, ?_, ?_⟩
  · by_cases hs : r.status = "SUCCESS"
    · rcases hi : r.images with _ | ⟨img, imgs⟩ <;>
        simp [hp, hs, hi, List.countP_cons, List.countP_nil, List.countP_append, Event.isGetBuild, h2]
    · simp [hp, hs, List.countP_cons, List.countP_nil, List.countP_append, Event.isGetBuild, h2]
  · by_cases hs : r.status = "SUCCESS"
    · rcases hi : r.images with _ | ⟨img, imgs⟩ <;>
        simp [hp, hs, hi, List.countP_cons, List.countP_nil, List.countP_append, Event.isSleepEv, h3]
    · simp [hp, hs, List.countP_cons, List.countP_nil, List.countP_append, Event.isSleepEv, h3]
  · by_cases hs : r.status = "SUCCESS"
    · rcases hi : r.images with _ | ⟨img, imgs⟩ <;>
        simp [hp, hs, hi, List.countP_cons, List.countP_nil, List.countP_append, Event.isSleep5000, h4]
    · simp [hp, hs, List.countP_cons, List.countP_nil, List.countP_append, Event.isSleep5000, h4]
  · intro img imgs hst himgs
    simp [hp, hst, himgs]
  · intro hst
    simp [hp, hst]

/-- C4 witness: the spec's status sequence `QUEUED, WORKING, WORKING,
SUCCESS` — four `getBuild` calls, three 5000 ms waits, and the
completed build with its declared image returned. -/
theorem C4_build_poller_witness :
    (triggerCloudBuild "p" "europe-west1" "b" "source.zip" "repo" "img" true
        ⟨.ok "bld-1",
         [⟨"QUEUED", "https://logs.example", []⟩, ⟨"WORKING", "https://logs.example", []⟩,
          ⟨"WORKING", "https://logs.example", []⟩] ++
          (⟨"SUCCESS", "https://logs.example", ["img-a"]⟩ : BuildResp) :: []⟩).2.countP Event.isGetBuild =
      [(⟨"QUEUED", "https://logs.example", []⟩ : BuildResp), ⟨"WORKING", "https://logs.example", []⟩,
        ⟨"WORKING", "https://logs.example", []⟩].length + 1
    ∧ ((triggerCloudBuild "p" "europe-west1" "b" "source.zip" "repo" "img" true
        ⟨.ok "bld-1",
         [⟨"QUEUED", "https://logs.example", []⟩, ⟨"WORKING", "https://logs.example", []⟩,
          ⟨"WORKING", "https://logs.example", []⟩] ++
          (⟨"SUCCESS", "https://logs.example", ["img-a"]⟩ : BuildResp) :: []⟩).1 =
        .ok ⟨"SUCCESS", "https://logs.example", ["img-a"]⟩
      ∧ Event.log "info" ("Image built: " ++ "img-a") ∈
          (triggerCloudBuild "p" "europe-west1" "b" "source.zip" "repo" "img" true
            ⟨.ok "bld-1",
             [⟨"QUEUED", "https://logs.example", []⟩, ⟨"WORKING", "https://logs.example", []⟩,
              ⟨"WORKING", "https://logs.example", []⟩] ++
              (⟨"SUCCESS", "https://logs.example", ["img-a"]⟩ : BuildResp) :: []⟩).2) :=
  ⟨(C4_build_poller "p" "europe-west1" "b" "source.zip" "repo" "img" "bld-1" true
      [⟨"QUEUED", "https://logs.example", []⟩, ⟨"WORKING", "https://logs.example", []⟩,
       ⟨"WORKING", "https://logs.example", []⟩] []
      ⟨"SUCCESS", "https://logs.example", ["img-a"]⟩ (by decide) (by decide)).1,
    (C4_build_poller "p" "europe-west1" "b" "source.zip" "repo" "img" "bld-1" true
      [⟨"QUEUED", "https://logs.example", []⟩, ⟨"WORKING", "https://logs.example", []⟩,
       ⟨"WORKING", "https://logs.example", []⟩] []
      ⟨"SUCCESS", "https://logs.example", ["img-a"]⟩ (by decide) (by decide)).2.2.2.1 "img-a" [] rfl rfl⟩

/-- The archive builder emits only local events — it never makes a
network call, whatever the input. -/
theorem zipFilesGo_no_remote (fs : FS) (cwd : String) (files : List JSFile) :
    (zipFilesGo fs cwd files).2.all (fun e => !e.isRemote) = true := by
  induction files with
  | nil => rfl
  | cons f rest ih =>
    rcases hz : zipFilesGo fs cwd rest with ⟨res, evs⟩
    rw [hz] at ih
    simp only at ih
    simp only [List.all_eq_true, Event.isRemote, Bool.not_eq_true'] at ih
    cases f with
    | str p =>
      by_cases hex : fs.existsB (pathResolve cwd (rewriteWslPath p)) = true
      · rcases hstat : fs.stat (pathResolve cwd (rewriteWslPath p)) with _ | b
        · simp [zipFilesGo, hex, hstat, hz, List.all_cons, Event.isRemote]
          exact ih
        · cases b <;>
            (simp [zipFilesGo, hex, hstat, hz, List.all_cons, Event.isRemote]; exact ih)
      · simp only [Bool.not_eq_true] at hex
        simp [zipFilesGo, hex, List.all_cons, Event.isRemote]
    | obj hf hc fn c =>
      cases hf <;> cases hc <;>
        (simp [zipFilesGo, hz, List.all_cons, Event.isRemote]; try exact ih)
    | other r => simp [zipFilesGo, List.all_cons, Event.isRemote]

/-- The result component of `zipFiles` is that of its per-element loop. -/
theorem zipFiles_fst (files : List JSFile) (fs : FS) (cwd : String) :
    (zipFiles files fs cwd).1 = (zipFilesGo fs cwd files).1 := by
  unfold zipFiles
  rcases h : zipFilesGo fs cwd files with ⟨res, evs⟩
  simp [h]

/-- On a list of well-formed entries containing a path that does not
resolve, the loop rejects with `File or directory not found`. -/
theorem zipFilesGo_missing_path (fs : FS) (cwd : String) (files : List JSFile)
    (hwf : ∀ f ∈ files, f.isWellFormed = true)
    (hmiss : ∃ f ∈ files, isMissingPath fs cwd f = true) :
    ∃ p, (zipFilesGo fs cwd files).1 = .error ("File or directory not found: " ++ p) := by
  induction files with
  | nil => simp at hmiss
  | cons f rest ih =>
    cases f with
    | str p =>
      by_cases hex : fs.existsB (pathResolve cwd (rewriteWslPath p)) = true
      · have hmiss' : ∃ f ∈ rest, isMissingPath fs cwd f = true := by
          rcases hmiss with ⟨g, hg, hgm⟩
          rcases List.mem_cons.mp hg with rfl | hgr
          · simp [isMissingPath, hex] at hgm
          · exact ⟨g, hgr, hgm⟩
        obtain ⟨q, hq⟩ := ih (fun x hx => hwf x (List.mem_cons_of_mem _ hx)) hmiss'
        rcases hz : zipFilesGo fs cwd rest with ⟨res, evs⟩
        rw [hz] at hq
        simp only at hq
        rcases hstat : fs.stat (pathResolve cwd (rewriteWslPath p)) with _ | b
        · exact ⟨q, by simp [zipFilesGo, hex, hstat, hz, hq]⟩
        · cases b <;> exact ⟨q, by simp [zipFilesGo, hex, hstat, hz, hq]⟩
      · simp only [Bool.not_eq_true] at hex
        exact ⟨pathResolve cwd (rewriteWslPath p), by simp [zipFilesGo, hex]⟩
    | obj hf hc fn c =>
      have hwff := hwf _ (List.mem_cons_self _ _)
      simp only [JSFile.isWellFormed, Bool.and_eq_true] at hwff
      obtain ⟨rfl, rfl⟩ : hf = true ∧ hc = true := hwff
      have hmiss' : ∃ f ∈ rest, isMissingPath fs cwd f = true := by
        rcases hmiss with ⟨g, hg, hgm⟩
        rcases List.mem_cons.mp hg with rfl | hgr
        · simp [isMissingPath] at hgm
        · exact ⟨g, hgr, hgm⟩
      obtain ⟨q, hq⟩ := ih (fun x hx => hwf x (List.mem_cons_of_mem _ hx)) hmiss'
      rcases hz : zipFilesGo fs cwd rest with ⟨res, evs⟩
      rw [hz] at hq
      simp only at hq
      exact ⟨q, by simp [zipFilesGo, hz, hq]⟩
    | other r =>
      have := hwf _ (List.mem_cons_self _ _)
      simp [JSFile.isWellFormed] at this

/-- On a list whose path entries all resolve but which contains an
element of neither accepted variant, the loop rejects with
`Invalid file format`. -/
theorem zipFilesGo_invalid_elem (fs : FS) (cwd : String) (files : List JSFile)
    (hok : ∀ f ∈ files, isMissingPath fs cwd f = false)
    (hbad : ∃ f ∈ files, f.isWellFormed = false) :
    ∃ f, JSFile.isWellFormed f = false
      ∧ (zipFilesGo fs cwd files).1 = .error ("Invalid file format: " ++ jsStringify f) := by
  induction files with
  | nil => simp at hbad
  | cons f rest ih =>
    by_cases hwf : f.isWellFormed = true
    · have hbad' : ∃ g ∈ rest, g.isWellFormed = false := by
        rcases hbad with ⟨g, hg, hgb⟩
        rcases List.mem_cons.mp hg with rfl | hgr
        · rw [hwf] at hgb; cases hgb
        · exact ⟨g, hgr, hgb⟩
      obtain ⟨g, hgb, hge⟩ := ih (fun x hx => hok x (List.mem_cons_of_mem _ hx)) hbad'
      rcases hz : zipFilesGo fs cwd rest with ⟨res, evs⟩
      rw [hz] at hge
      simp only at hge
      cases f with
      | str p =>
        have hokp := hok _ (List.mem_cons_self _ _)
        simp only [isMissingPath, Bool.not_eq_false'] at hokp
        rcases hstat : fs.stat (pathResolve cwd (rewriteWslPath p)) with _ | b
        · refine ⟨g, hgb, ?_⟩
          simp [zipFilesGo, hokp, hstat, hz, hge]
        · cases b <;> refine ⟨g, hgb, ?_⟩ <;> simp [zipFilesGo, hokp, hstat, hz, hge]
      | obj hf hc fn c =>
        simp only [JSFile.isWellFormed, Bool.and_eq_true] at hwf
        obtain ⟨rfl, rfl⟩ : hf = true ∧ hc = true := hwf
        exact ⟨g, hgb, by simp [zipFilesGo, hz, hge]⟩
      | other r => simp [JSFile.isWellFormed] at hwf
    · simp only [Bool.not_eq_true] at hwf
      cases f with
      | str p => simp [JSFile.isWellFormed] at hwf
      | obj hf hc fn c =>
        refine ⟨JSFile.obj hf hc fn c, hwf, ?_⟩
        have : (hf && hc) = false := by simpa [JSFile.isWellFormed] using hwf
        rcases Bool.and_eq_false_iff.mp this with h1 | h2
        · cases hc <;> simp [zipFilesGo, h1, jsStringify]
        · cases hf <;> simp [zipFilesGo, h2, jsStringify]
      | other r => exact ⟨JSFile.other r, hwf, by simp [zipFilesGo, jsStringify]⟩

/-- Model of `zipFiles` never emits a remote event. -/
theorem zipFiles_no_remote (files : List JSFile) (fs : FS) (cwd : String) :
    (zipFiles files fs cwd).2.all (fun e => !e.isRemote) = true := by
  have h := zipFilesGo_no_remote fs cwd files
  unfold zipFiles
  rcases hz : zipFilesGo fs cwd files with ⟨res, evs⟩
  rw [hz] at h
  simp only at h
  simpa [List.all_cons, Event.isRemote] using h

/-- C9: a `files` list of well-formed entries containing a path that
does not resolve to an existing file or directory makes the archive
builder fail with a `File or directory not found` error, and a list
containing an element of neither accepted variant (all of whose path
entries resolve) makes it fail with an `Invalid file format` error; in
both runs the archive builder performs no network call at all. -/
theorem C9_archive_builder_errors (files files2 : List JSFile) (fs : FS) (cwd : String)
    (hwf : ∀ f ∈ files, f.isWellFormed = true)
    (hmiss : ∃ f ∈ files, isMissingPath fs cwd f = true)
    (hok2 : ∀ f ∈ files2, isMissingPath fs cwd f = false)
    (hbad2 : ∃ f ∈ files2, f.isWellFormed = false) :
    (∃ p, (zipFiles files fs cwd).1 = .error ("File or directory not found: " ++ p))
    ∧ (zipFiles files fs cwd).2.all (fun e => !e.isRemote) = true
    ∧ (∃ f, JSFile.isWellFormed f = false
        ∧ (zipFiles files2 fs cwd).1 = .error ("Invalid file format: " ++ jsStringify f))
    ∧ (zipFiles files2 fs cwd).2.all (fun e => !e.isRemote) = true := by
  refine ⟨?_, zipFiles_no_remote files fs cwd, ?_, zipFiles_no_remote files2 fs cwd⟩
  · obtain ⟨p, hp⟩ := zipFilesGo_missing_path fs cwd files hwf hmiss
    exact ⟨p, by rw [zipFiles_fst]; exact hp⟩
  · obtain ⟨f, hf, hfe⟩ := zipFilesGo_invalid_elem fs cwd files2 hok2 hbad2
    exact ⟨f, hf, by rw [zipFiles_fst]; exact hfe⟩

/-- C9 witness: a list with one nonexistent path, and a list whose
second element is a number. -/
theorem C9_archive_builder_errors_witness :
    (∃ p, (zipFiles [JSFile.str "/nope/app.js"] fsFolderUpper "/w").1 =
        .error ("File or directory not found: " ++ p))
    ∧ (zipFiles [JSFile.str "/nope/app.js"] fsFolderUpper "/w").2.all (fun e => !e.isRemote) = true
    ∧ (∃ f, JSFile.isWellFormed f = false
        ∧ (zipFiles [JSFile.str "/proj/DOCKERFILE", JSFile.other "42"] fsFolderUpper "/w").1 =
            .error ("Invalid file format: " ++ jsStringify f))
    ∧ (zipFiles [JSFile.str "/proj/DOCKERFILE", JSFile.other "42"] fsFolderUpper "/w").2.all
        (fun e => !e.isRemote) = true :=
  C9_archive_builder_errors [JSFile.str "/nope/app.js"] [JSFile.str "/proj/DOCKERFILE", JSFile.other "42"]
    fsFolderUpper "/w" (by decide) (by decide) (by decide) (by decide)

/-- String append acts as list append on the underlying characters. -/
theorem data_append_eq (a b : String) : (a ++ b).data = a.data ++ b.data := rfl

/-- A list is a prefix of itself followed by anything. -/
theorem listIsPrefixOf_append {α : Type} [BEq α] [LawfulBEq α] (l t : List α) :
    l.isPrefixOf (l ++ t) = true := by
  induction l with
  | nil => simp [List.isPrefixOf]
  | cons x l ih => simp [List.isPrefixOf, ih]

/-- A string starts with itself before any suffix. -/
theorem strStartsWith_append (a b : String) : strStartsWith (a ++ b) a = true := by
  unfold strStartsWith
  rw [data_append_eq]
  exact listIsPrefixOf_append a.data b.data

/-- Appending a non-empty string changes a string. -/
theorem append_ne_self_of_ne_empty (a b : String) (h : b.data ≠ []) : a ++ b ≠ a := by
  intro he
  have hd : (a ++ b).data = a.data := congrArg String.data he
  rw [data_append_eq] at hd
  have hl := congrArg List.length hd
  simp only [List.length_append] at hl
  have : b.data.length = 0 := by omega
  exact h (List.eq_nil_of_length_eq_zero this)

/-- A string with a non-empty left part is non-empty. -/
theorem data_ne_nil_left (a b : String) (h : a.data ≠ []) : (a ++ b).data ≠ [] := by
  rw [data_append_eq]
  intro hh
  exact h (List.append_eq_nil.mp hh).1

/-- When project creation succeeds but billing attachment will fail,
`ensureProjectExists` (the `deploy` bootstrap) throws. -/
theorem ensureProjectExists_billing_error (pid : String) (env : BillingEnv)
    (hc : env.createProjectResult = .ok (some pid))
    (hf : billingAttachFailsB pid env = true) :
    ∃ m, (ensureProjectExists none env).1 = .error m := by
  unfold ensureProjectExists
  simp only [hc]
  unfold billingAttachFailsB at hf
  rcases hfind : env.accounts.find? (fun acc => acc.isOpen) with _ | acc
  · rcases hemp : env.accounts.isEmpty with _ | _ <;>
      simp [hfind, hemp]
  · simp only [hfind] at hf
    have hne : env.accounts.isEmpty = false := by
      cases hacc : env.accounts with
      | nil => rw [hacc] at hfind; simp [List.find?] at hfind
      | cons x xs => simp [hacc]
    rcases hatt : env.attach pid acc.name with _ | info
    · simp [hfind, hne, hatt]
    · simp only [hatt, Bool.not_eq_true'] at hf
      simp [hfind, hne, hatt, hf]

/-- When project creation succeeds and billing attachment will succeed,
`ensureProjectExists` resolves to the created project, having issued the
project-creation call. -/
theorem ensureProjectExists_created_ok (pid : String) (env : BillingEnv)
    (hc : env.createProjectResult = .ok (some pid))
    (hs : billingAttachSucceedsB pid env = true) :
    (ensureProjectExists none env).1 = .ok pid
    ∧ Event.createProjectCall ∈ (ensureProjectExists none env).2 := by
  unfold ensureProjectExists
  simp only [hc]
  unfold billingAttachSucceedsB at hs
  rcases hfind : env.accounts.find? (fun acc => acc.isOpen) with _ | acc
  · simp only [hfind] at hs; cases hs
  · simp only [hfind] at hs
    have hne : env.accounts.isEmpty = false := by
      cases hacc : env.accounts with
      | nil => rw [hacc] at hfind; simp [List.find?] at hfind
      | cons x xs => simp [hacc]
    rcases hatt : env.attach pid acc.name with _ | info
    · simp only [hatt] at hs; cases hs
    · simp only [hatt] at hs
      constructor <;> simp [hfind, hne, hatt, hs]

/-- When project creation succeeds but billing attachment will fail,
`createProjectAndAttachBilling` (the `create_project` tool path) does
not throw: it returns the created project ID with a non-empty warning
appended to the `Project <id> created.` message. -/
theorem createProjectAndAttachBilling_warns (pid : String) (env : BillingEnv)
    (hc : env.createProjectResult = .ok (some pid))
    (hf : billingAttachFailsB pid env = true) :
    ∃ msg, (createProjectAndAttachBilling none env).1 = .ok (pid, msg)
      ∧ strStartsWith msg ("Project " ++ pid ++ " created.") = true
      ∧ msg ≠ "Project " ++ pid ++ " created." := by
  unfold createProjectAndAttachBilling
  simp only [hc]
  unfold billingAttachFailsB at hf
  rcases hfind : env.accounts.find? (fun acc => acc.isOpen) with _ | acc
  · rcases hemp : env.accounts.isEmpty with _ | _
    · simp only [hfind, hemp, Bool.false_eq_true, if_false]
      exact ⟨_, rfl, strStartsWith_append _ _,
        append_ne_self_of_ne_empty _ _
          (data_ne_nil_left _ _ (data_ne_nil_left _ _ (data_ne_nil_left _ _ (by decide))))⟩
    · simp only [hfind, hemp, if_true]
      exact ⟨_, rfl, strStartsWith_append _ _,
        append_ne_self_of_ne_empty _ _ (by decide)⟩
  · simp only [hfind] at hf
    have hne : env.accounts.isEmpty = false := by
      cases hacc : env.accounts with
      | nil => rw [hacc] at hfind; simp [List.find?] at hfind
      | cons x xs => simp [hacc]
    rcases hatt : env.attach pid acc.name with _ | info
    · simp only [hfind, hne, hatt, Bool.false_eq_true, if_false]
      exact ⟨_, rfl, strStartsWith_append _ _,
        append_ne_self_of_ne_empty _ _
          (data_ne_nil_left _ _ (data_ne_nil_left _ _ (data_ne_nil_left _ _ (by decide))))⟩
    · simp only [hatt, Bool.not_eq_true'] at hf
      simp only [hfind, hne, hatt, hf, Bool.false_eq_true, if_false]
      exact ⟨_, rfl, strStartsWith_append _ _,
        append_ne_self_of_ne_empty _ _
          (data_ne_nil_left _ _ (data_ne_nil_left _ _ (data_ne_nil_left _ _ (by decide))))⟩

/-- The API-enabling step always begins by logging and issuing the
`getService` check for the first API of its list. -/
theorem ensureApisEnabled_take_two (projectId api : String) (apis : List String) (env : ApiEnv) :
    (ensureApisEnabled projectId (api :: apis) env).2.take 2 =
      [Event.log "info" "Checking and enabling required APIs...",
       Event.getApiServiceCall ("projects/" ++ projectId ++ "/services/" ++ api)] := by
  unfold ensureApisEnabled ensureApisEnabledGo
  rcases hst : env.state ("projects/" ++ projectId ++ "/services/" ++ api) with e | stv
  · simp [hst]
  · by_cases hen : stv = "ENABLED"
    · rcases hgo : ensureApisEnabledGo projectId env apis with ⟨gres, gevs⟩
      cases gres <;> simp [hst, hen, hgo]
    · rcases henb : env.enable ("projects/" ++ projectId ++ "/services/" ++ api) with e2 | u
      · simp [hst, hen, henb]
      · rcases hgo : ensureApisEnabledGo projectId env apis with ⟨gres, gevs⟩
        cases gres <;> simp [hst, hen, henb, hgo]

/-- With a non-empty valid `files` array and a successful bootstrap, the
earlier `deploy`'s trace is the bootstrap trace followed by the
pipeline's. -/
theorem deployV1_trace_decomp (cfg : DeployConfig) (env : DeployEnv) (f : JSFile)
    (rest : List JSFile) (pid : String) (pevs : List Event)
    (hfiles : cfg.files = .arr (f :: rest))
    (hboot : ensureProjectExists cfg.projectId env.billing = (.ok pid, pevs)) :
    (deployV1 cfg env).2 = pevs ++ (deployV1Pipeline pid cfg (f :: rest) env).2 := by
  unfold deployV1
  rcases hp : deployV1Pipeline pid cfg (f :: rest) env with ⟨res, evs⟩
  simp [hfiles, hboot, hp]

/-- The pipeline body's trace always starts with the API-enabling
step's trace. -/
theorem deployV1Pipeline_api_front (pid : String) (cfg : DeployConfig) (files : List JSFile)
    (env : DeployEnv) :
    (ensureApisEnabled pid REQUIRED_APIS_V1 env.api).2 <+: (deployV1Pipeline pid cfg files env).2 := by
  unfold deployV1Pipeline
  rcases ha : ensureApisEnabled pid REQUIRED_APIS_V1 env.api with ⟨ares, aevs⟩
  cases ares with
  | error e => exact List.prefix_append _ _
  | ok u =>
    show aevs <+: _
    dsimp only
    rcases hbk : ensureStorageBucketExists (pid ++ "-source-bucket") cfg.region env.st env.storageFaults
      with ⟨bres, st1, bevs⟩
    cases bres with
    | error e => (try simp only [List.append_assoc]); exact List.prefix_append _ _
    | ok bucket =>
      try dsimp only
      rcases hzp : zipFiles files env.fs env.cwd with ⟨zres, zevs⟩
      cases zres with
      | error e => (try simp only [List.append_assoc]); exact List.prefix_append _ _
      | ok zv =>
        try dsimp only
        rcases hup : uploadToStorageBucket bucket ZIP_FILE_NAME env.uploadResult with ⟨ures, uevs⟩
        cases ures with
        | error e => (try simp only [List.append_assoc]); exact List.prefix_append _ _
        | ok uv =>
          try dsimp only
          rcases hrp : ensureArtifactRegistryRepoExists pid cfg.region REPO_NAME "DOCKER" st1 env.repoFaults
            with ⟨rres, st2, revs⟩
          cases rres with
          | error e => (try simp only [List.append_assoc]); exact List.prefix_append _ _
          | ok repo =>
            try dsimp only
            rcases htb : triggerCloudBuild pid cfg.region (pid ++ "-source-bucket") ZIP_FILE_NAME REPO_NAME
                (cfg.region ++ "-docker.pkg.dev/" ++ pid ++ "/" ++ REPO_NAME ++ "/" ++ cfg.serviceName ++ ":" ++ IMAGE_TAG)
                (detectDockerfileV1 files) env.build with ⟨tres, tevs⟩
            cases tres with
            | err e => (try simp only [List.append_assoc]); exact List.prefix_append _ _
            | exited c => (try simp only [List.append_assoc]); exact List.prefix_append _ _
            | hang => (try simp only [List.append_assoc]); exact List.prefix_append _ _
            | ok completed =>
              try dsimp only
              rcases completed with ⟨status, logUrl, images⟩
              cases images with
              | nil => (try simp only [List.append_assoc]); exact List.prefix_append _ _
              | cons img imgs =>
                try dsimp only
                rcases hdp : deployToCloudRunV1 pid cfg.region cfg.serviceName img env.run with ⟨dres, devs⟩
                cases dres with
                | error e => (try simp only [List.append_assoc]); exact List.prefix_append _ _
                | ok svc => (try simp only [List.append_assoc]); exact List.prefix_append _ _

/-- C1 (amended): when `deploy` bootstraps a project (no `projectId`),
project creation succeeds, and no open billing account is found or the
attachment fails, the bootstrap (`ensureProjectExists`) throws and
`deploy` aborts with that error — it does not continue with the created
project; the behaviour of reporting the failure as a non-fatal warning
appended to the result message belongs to `createProjectAndAttachBilling`,
the `create_project` tool path, which returns the created project ID
with a warning appended to `Project <id> created.`. -/
theorem C1_bootstrap_billing_failure (pid : String) (benv : BillingEnv) (env : DeployEnv)
    (cfg : DeployConfig) (f : JSFile) (rest : List JSFile)
    (hc : benv.createProjectResult = .ok (some pid))
    (hf : billingAttachFailsB pid benv = true)
    (henv : env.billing = benv)
    (hcfg : cfg.projectId = none)
    (hfiles : cfg.files = .arr (f :: rest)) :
    (∃ m, (ensureProjectExists none benv).1 = .error m ∧ (deployV1 cfg env).1 = .err m)
    ∧ (∃ msg, (createProjectAndAttachBilling none benv).1 = .ok (pid, msg)
        ∧ strStartsWith msg ("Project " ++ pid ++ " created.") = true
        ∧ msg ≠ "Project " ++ pid ++ " created.") := by
  obtain ⟨m, hm⟩ := ensureProjectExists_billing_error pid benv hc hf
  refine ⟨⟨m, hm, ?_⟩, createProjectAndAttachBilling_warns pid benv hc hf⟩
  unfold deployV1
  simp only [hfiles, henv, hcfg]
  rcases hb : ensureProjectExists none benv with ⟨res, pevs⟩
  rw [hb] at hm
  simp only at hm
  subst hm
  simp

/-- C1 witness: concrete environment with a created project and only a
closed billing account. -/
theorem C1_bootstrap_billing_failure_witness :
    (∃ m, (ensureProjectExists none billingEnvNoOpen).1 = .error m
      ∧ (deployV1 cfgNoProjectInline deployEnvNoOpenBilling).1 = .err m)
    ∧ (∃ msg, (createProjectAndAttachBilling none billingEnvNoOpen).1 = .ok ("mcp-foo-bar", msg)
        ∧ strStartsWith msg ("Project " ++ "mcp-foo-bar" ++ " created.") = true
        ∧ msg ≠ "Project " ++ "mcp-foo-bar" ++ " created.") :=
  C1_bootstrap_billing_failure "mcp-foo-bar" billingEnvNoOpen deployEnvNoOpenBilling
    cfgNoProjectInline inlineIndexJs [] rfl (by decide) rfl rfl rfl

/-- C2 (amended): on a request with non-empty `files` and no
`projectId`, the earlier snapshot's `deploy` does not fail on the
missing `projectId`: it triggers the bootstrap (issuing the
project-creation call) and, when the bootstrap succeeds, proceeds with
the created project ID — its first API check targets that project; the
later snapshot's `deploy` instead exits the process immediately with no
bootstrap call. -/
theorem C2_missing_project_bootstrap (pid : String) (env : DeployEnv) (cfg : DeployConfig)
    (f : JSFile) (rest : List JSFile)
    (hc : env.billing.createProjectResult = .ok (some pid))
    (hs : billingAttachSucceedsB pid env.billing = true)
    (hcfg : cfg.projectId = none)
    (hfiles : cfg.files = .arr (f :: rest)) :
    ((ensureProjectExists none env.billing).1 = .ok pid
     ∧ Event.createProjectCall ∈ (deployV1 cfg env).2
     ∧ Event.getApiServiceCall ("projects/" ++ pid ++ "/services/" ++ "iam.googleapis.com") ∈ (deployV1 cfg env).2)
    ∧ ((deployV2 cfg env).1 = .exited 1
     ∧ Event.createProjectCall ∉ (deployV2 cfg env).2) := by
  obtain ⟨hok, hmem⟩ := ensureProjectExists_created_ok pid env.billing hc hs
  rcases hb : ensureProjectExists none env.billing with ⟨res, pevs⟩
  rw [hb] at hok hmem
  simp only at hok hmem
  subst hok
  have hdec := deployV1_trace_decomp cfg env f rest pid pevs hfiles (by rw [hcfg]; exact hb)
  constructor
  · refine ⟨rfl, ?_, ?_⟩
    · rw [hdec]
      exact List.mem_append_left _ hmem
    · have htake := ensureApisEnabled_take_two pid "iam.googleapis.com"
        ["storage.googleapis.com", "cloudbuild.googleapis.com", "artifactregistry.googleapis.com",
         "run.googleapis.com", "cloudbilling.googleapis.com"] env.api
      have hreq : REQUIRED_APIS_V1 = "iam.googleapis.com" ::
          ["storage.googleapis.com", "cloudbuild.googleapis.com", "artifactregistry.googleapis.com",
           "run.googleapis.com", "cloudbilling.googleapis.com"] := rfl
      have hmem2 : Event.getApiServiceCall ("projects/" ++ pid ++ "/services/" ++ "iam.googleapis.com") ∈
          (ensureApisEnabled pid REQUIRED_APIS_V1 env.api).2 := by
        rw [hreq]
        refine List.take_subset 2 _ ?_
        rw [htake]
        simp
      have hpre := deployV1Pipeline_api_front pid cfg (f :: rest) env
      rw [hdec]
      exact List.mem_append_right _ (hpre.subset hmem2)
  · constructor <;> simp [deployV2, hcfg]

/-- C2 witness: the concrete no-project request against an environment
whose bootstrap succeeds. -/
theorem C2_missing_project_bootstrap_witness :
    ((ensureProjectExists none deployEnvBootstrapOk.billing).1 = .ok "mcp-foo-bar"
     ∧ Event.createProjectCall ∈ (deployV1 cfgNoProjectInline deployEnvBootstrapOk).2
     ∧ Event.getApiServiceCall ("projects/" ++ "mcp-foo-bar" ++ "/services/" ++ "iam.googleapis.com") ∈
         (deployV1 cfgNoProjectInline deployEnvBootstrapOk).2)
    ∧ ((deployV2 cfgNoProjectInline deployEnvBootstrapOk).1 = .exited 1
     ∧ Event.createProjectCall ∉ (deployV2 cfgNoProjectInline deployEnvBootstrapOk).2) :=
  C2_missing_project_bootstrap "mcp-foo-bar" deployEnvBootstrapOk cfgNoProjectInline
    inlineIndexJs [] rfl (by decide) rfl rfl
